import Mathlib

/-!
Scan-capture pipeline of `scanner-app` (`src/app.js`).

A shallow embedding of the serial-number scanner: the text normaliser and
validator, the region-of-interest arithmetic, the de-duplicating collection
store and the scan-loop controller, followed by theorems about them.

JavaScript strings are Lean `String`s, handled through their character lists.
JavaScript numbers are modelled by `JSNum`: finite values are exact rationals
(no rounding, no overflow) and the IEEE special values `NaN`, `+Infinity`,
`-Infinity` arise from division by zero and propagate as in IEEE 754.
-/

namespace ScannerApp

/-! ## Text normaliser and validator -/

/-- The character class `[0-9]` (the same set as `\d` in a pattern without the
unicode flag): code points U+0030 .. U+0039. -/
def isDigit09 (c : Char) : Bool :=
  decide (48 ≤ c.toNat) && decide (c.toNat ≤ 57)

/-- The characters matched by `\s` in a JavaScript pattern, which are also the
characters removed by `String.prototype.trim`: WhiteSpace and LineTerminator
code points.  The class `[\s\n]` of the word splitter is this same set, since
`\n` (U+000A) already belongs to `\s`. -/
def isJSWhiteSpace (c : Char) : Bool :=
  c.toNat == 0x09 || c.toNat == 0x0A || c.toNat == 0x0B || c.toNat == 0x0C ||
  c.toNat == 0x0D || c.toNat == 0x20 || c.toNat == 0xA0 || c.toNat == 0x1680 ||
  (decide (0x2000 ≤ c.toNat) && decide (c.toNat ≤ 0x200A)) ||
  c.toNat == 0x2028 || c.toNat == 0x2029 || c.toNat == 0x202F ||
  c.toNat == 0x205F || c.toNat == 0x3000 || c.toNat == 0xFEFF

/-- The global replacement `.replace(/[^0-9]/g, '')` on a character list: the
scan visits every character once; a character matching `[^0-9]` is replaced
by the empty string, any other character is copied. -/
def replaceNonDigits : List Char → List Char
  | [] => []
  | c :: cs => if !isDigit09 c then replaceNonDigits cs else c :: replaceNonDigits cs

/-- The quantified atom `\d{n}`: consume exactly `n` characters of class `\d`
from the front of the input, returning what is left. -/
def matchDigits : Nat → List Char → Option (List Char)
  | 0, rest => some rest
  | _ + 1, [] => none
  | n + 1, c :: cs => if isDigit09 c then matchDigits n cs else none

/-- The test `serialNumberPattern.test(s)` for `serialNumberPattern = /^\d{10}$/`
(`src/app.js` line 35): `^` lets the match start at index 0 only, `\d{10}`
consumes ten digits, `$` (no multiline flag) requires the end of the input. -/
def serialNumberPatternTest (s : List Char) : Bool :=
  match matchDigits 10 s with
  | some rest => rest.isEmpty
  | none => false

/-- The computation `word.replace(/[^0-9]/g, '')` that `processFrame` binds to
`cleanWord` (`src/app.js` line 458). -/
def cleanWord (word : String) : String :=
  ⟨replaceNonDigits word.data⟩

/-- Source function `matchesSerialNumberPattern(text)` (`src/app.js` lines 160-162):
`serialNumberPattern.test(text.replace(/[^0-9]/g, ''))`. -/
def matchesSerialNumberPattern (text : String) : Bool :=
  serialNumberPatternTest (replaceNonDigits text.data)

/-- The method `String.prototype.trim`: strip leading and trailing white space. -/
def trim (text : String) : String :=
  ⟨(text.data.dropWhile isJSWhiteSpace).rdropWhile isJSWhiteSpace⟩

/-- The method `String.prototype.split` with the separator `/[\s\n]+/`, on a
character list.  The flag says whether the previous character belonged to a
separator match: the greedy `+` extends that match over the whole run, so
only the first white-space character of a run closes the current piece and
opens a new one.  A leading or trailing separator yields an empty piece, and
the empty input yields one empty piece, as in JavaScript. -/
def splitGo : Bool → List Char → List (List Char)
  | _, [] => [[]]
  | inSep, c :: cs =>
    if isJSWhiteSpace c then
      if inSep then splitGo true cs else [] :: splitGo true cs
    else
      List.modifyHead (List.cons c) (splitGo false cs)

/-- The expression `text.split(/[\s\n]+/)`. -/
def splitWhiteSpace (text : String) : List String :=
  (splitGo false text.data).map String.mk

/-- The expression `text.split(/[\s\n]+/).filter(word => word.length > 0)` bound to
`words` in `processFrame` (`src/app.js` line 454). -/
def extractWords (text : String) : List String :=
  (splitWhiteSpace text).filter (fun word => decide (word.length > 0))

/-- The tokens one cycle looks at (`src/app.js` lines 442-454): the recognised text
is trimmed; an empty result ends the cycle before any word is produced;
otherwise the trimmed text is split into words. -/
def tokenize (recognized : String) : List String :=
  let text := trim recognized
  if text.length = 0 then [] else extractWords text

/-- Maximal runs of non-white-space characters of a character list, in order:
cut at every white-space character and keep the non-empty pieces.  This
definition follows the specification's wording and is compared with `tokenize`. -/
def maximalNonWhiteSpaceRuns (text : List Char) : List (List Char) :=
  (text.splitOnP isJSWhiteSpace).filter (fun run => !run.isEmpty)

/-! ## Numbers and the region of interest -/

/-- A JavaScript number: a finite value (an exact rational) or one of the IEEE
special values.  Finite arithmetic is exact: the rounding of a double to 53 bits
and the overflow of a finite quotient or product to `Infinity` are not
modelled, so statements meant for every input quantify over the values
themselves and not over results of `div` and `mul`. -/
inductive JSNum where
  | fin (q : ℚ)
  | posInf
  | negInf
  | nan
deriving DecidableEq

namespace JSNum

/-- Unary minus. -/
def neg : JSNum → JSNum
  | fin q => fin (-q)
  | posInf => negInf
  | negInf => posInf
  | nan => nan

/-- Addition `a + b`: `Infinity + -Infinity` is `NaN`. -/
def add : JSNum → JSNum → JSNum
  | fin a, fin b => fin (a + b)
  | fin _, posInf => posInf
  | fin _, negInf => negInf
  | posInf, fin _ => posInf
  | posInf, posInf => posInf
  | posInf, negInf => nan
  | negInf, fin _ => negInf
  | negInf, negInf => negInf
  | negInf, posInf => nan
  | nan, _ => nan
  | _, nan => nan

/-- Subtraction `a - b`. -/
def sub (a b : JSNum) : JSNum := add a (neg b)

/-- The sign rule for a product or quotient with an infinite result. -/
def signedInf (positive : Bool) : JSNum := if positive then posInf else negInf

/-- Multiplication `a * b`: `0 * Infinity` is `NaN`. -/
def mul : JSNum → JSNum → JSNum
  | fin a, fin b => fin (a * b)
  | fin a, posInf => if a = 0 then nan else signedInf (decide (0 < a))
  | fin a, negInf => if a = 0 then nan else signedInf (decide (a < 0))
  | posInf, fin b => if b = 0 then nan else signedInf (decide (0 < b))
  | negInf, fin b => if b = 0 then nan else signedInf (decide (b < 0))
  | posInf, posInf => posInf
  | posInf, negInf => negInf
  | negInf, posInf => negInf
  | negInf, negInf => posInf
  | nan, _ => nan
  | _, nan => nan

/-- Division `a / b`: a non-zero finite value over zero is an infinity of the
sign of the dividend, `0 / 0` and `Infinity / Infinity` are `NaN`. -/
def div : JSNum → JSNum → JSNum
  | fin a, fin b =>
    if b = 0 then (if a = 0 then nan else signedInf (decide (0 < a))) else fin (a / b)
  | fin _, posInf => fin 0
  | fin _, negInf => fin 0
  | posInf, fin b => signedInf (decide (0 ≤ b))
  | negInf, fin b => signedInf (decide (b < 0))
  | posInf, posInf => nan
  | posInf, negInf => nan
  | negInf, posInf => nan
  | negInf, negInf => nan
  | nan, _ => nan
  | _, nan => nan

/-- The function `Math.round`: the nearest integer, a tie going towards
`+Infinity`; the special values are returned unchanged. -/
def round : JSNum → JSNum
  | fin q => fin (⌊q + 1 / 2⌋ : ℤ)
  | x => x

/-- The function `Math.max` on two arguments: `NaN` if either is `NaN`. -/
def max : JSNum → JSNum → JSNum
  | nan, _ => nan
  | _, nan => nan
  | posInf, _ => posInf
  | _, posInf => posInf
  | negInf, b => b
  | a, negInf => a
  | fin a, fin b => fin (if a ≤ b then b else a)

/-- The function `Math.min` on two arguments: `NaN` if either is `NaN`. -/
def min : JSNum → JSNum → JSNum
  | nan, _ => nan
  | _, nan => nan
  | negInf, _ => negInf
  | _, negInf => negInf
  | posInf, b => b
  | a, posInf => a
  | fin a, fin b => fin (if a ≤ b then a else b)

/-- The comparison `a <= b`: false as soon as one side is `NaN`. -/
def le : JSNum → JSNum → Bool
  | nan, _ => false
  | _, nan => false
  | negInf, _ => true
  | _, posInf => true
  | posInf, _ => false
  | _, negInf => false
  | fin a, fin b => decide (a ≤ b)

/-- The comparison `a < b`: false as soon as one side is `NaN`. -/
def lt : JSNum → JSNum → Bool
  | nan, _ => false
  | _, nan => false
  | posInf, _ => false
  | _, negInf => false
  | negInf, _ => true
  | _, posInf => true
  | fin a, fin b => decide (a < b)

/-- Truthiness of a number, as tested by `!x`: `0` and `NaN` are falsy. -/
def truthy : JSNum → Bool
  | fin q => decide (q ≠ 0)
  | nan => false
  | _ => true

end JSNum

/-- A rectangle returned by `getBoundingClientRect()`: finite coordinates in
on-screen pixels. -/
structure DOMRect where
  left : ℚ
  top : ℚ
  width : ℚ
  height : ℚ
deriving DecidableEq

/-- The rectangle handed to the recogniser, in frame pixels: the values bound to
`scanX`, `scanY`, `scanWidth`, `scanHeight`. -/
structure ROI where
  x : JSNum
  y : JSNum
  width : JSNum
  height : JSNum
deriving DecidableEq

/-- The constant `padding` of `processFrame` (`src/app.js` line 401). -/
def padding : JSNum := JSNum.fin 5

/-- The scale factor `video.videoWidth / videoRect.width` (lines 391-392). -/
def scaleFactor (frameSize : Nat) (displaySize : ℚ) : JSNum :=
  JSNum.div (JSNum.fin frameSize) (JSNum.fin displaySize)

/-- The unpadded start `Math.round((scanRegionRect.left - videoRect.left) * scaleX)`
(lines 395-396). -/
def exactScanStart (regionStart displayStart : ℚ) (scale : JSNum) : JSNum :=
  JSNum.round (JSNum.mul (JSNum.sub (JSNum.fin regionStart) (JSNum.fin displayStart)) scale)

/-- The unpadded extent `Math.round(scanRegionRect.width * scaleX)` (lines 397-398). -/
def exactScanExtent (regionExtent : ℚ) (scale : JSNum) : JSNum :=
  JSNum.round (JSNum.mul (JSNum.fin regionExtent) scale)

/-- The padded start `Math.max(0, exactScanX - padding)` (lines 402-403). -/
def paddedStart (exactStart : JSNum) : JSNum :=
  JSNum.max (JSNum.fin 0) (JSNum.sub exactStart padding)

/-- The padded extent `Math.min(canvas.width - scanX, exactScanWidth + 2 * padding)`
(lines 404-405); `canvas.width` was set to `video.videoWidth` on line 372. -/
def paddedExtent (frameSize : Nat) (start exactExtent : JSNum) : JSNum :=
  JSNum.min (JSNum.sub (JSNum.fin frameSize) start)
    (JSNum.add exactExtent (JSNum.mul (JSNum.fin 2) padding))

/-- One axis of the computation of lines 391-405: the scale factor, the rounded
exact start and extent, then the padded start and the padded, capped extent.
The source writes these lines once for `X`/`Width` and once for `Y`/`Height`. -/
def scanAxis (regionStart regionExtent displayStart displayExtent : ℚ) (frameSize : Nat) :
    JSNum × JSNum :=
  let scale := scaleFactor frameSize displayExtent
  let exactStart := exactScanStart regionStart displayStart scale
  let exactExtent := exactScanExtent regionExtent scale
  let start := paddedStart exactStart
  (start, paddedExtent frameSize start exactExtent)

/-- The region-of-interest computation of `processFrame` (`src/app.js` lines
382-415), from the two bounding rectangles and the frame size.  `none` is
the early `return` of line 387 (a falsy scan-region width or height) or of
line 414 (`scanWidth <= 0 || scanHeight <= 0`).  The two rectangle objects
themselves are always truthy. -/
def computeROI (scanRegionRect videoRect : DOMRect) (frameWidth frameHeight : Nat) :
    Option ROI :=
  if !(JSNum.truthy (JSNum.fin scanRegionRect.width)) ||
      !(JSNum.truthy (JSNum.fin scanRegionRect.height)) then none
  else
    let (scanX, scanWidth) :=
      scanAxis scanRegionRect.left scanRegionRect.width videoRect.left videoRect.width frameWidth
    let (scanY, scanHeight) :=
      scanAxis scanRegionRect.top scanRegionRect.height videoRect.top videoRect.height frameHeight
    if JSNum.le scanWidth (JSNum.fin 0) || JSNum.le scanHeight (JSNum.fin 0) then none
    else some { x := scanX, y := scanY, width := scanWidth, height := scanHeight }

/-! ## Session state -/

/-- A device position `{lat, lng, accuracy}` as returned by `getCurrentLocation`. -/
structure Position where
  lat : ℚ
  lng : ℚ
  accuracy : ℚ
deriving DecidableEq

/-- An entry of `scannedNumbers`: the object literal pushed on lines 347-351. -/
structure ScannedSerial where
  number : String
  location : Option Position
  timestamp : String
deriving DecidableEq

/-- A camera track; `stopped` records that `track.stop()` was called. -/
structure Track where
  stopped : Bool
deriving DecidableEq

/-- A media stream object: the tracks returned by `getTracks()`. -/
structure MediaStream where
  tracks : List Track
deriving DecidableEq

/-- Which of the two views is displayed. -/
inductive View where
  | scan
  | results
deriving DecidableEq

/-- The mutable variables closed over by `initializeApp` (`src/app.js` lines 25-32)
together with the parts of the page and of the runtime that the controller
reads and writes.  Stream objects live in `streams` and are referred to by
their index, so that a stream stays observable after its handle is cleared.
`pendingTimers` counts the armed `setTimeout(processFrame, 200)` timers,
`recognitionsInFlight` the `worker.recognize` calls not yet settled and
`locationLookups` the calls of `getCurrentLocation()` made so far. -/
structure Session where
  streams : List MediaStream
  stream : Option Nat
  isScanning : Bool
  scanInterval : Option Nat
  isProcessing : Bool
  scannedNumbers : List ScannedSerial
  currentPosition : Option Position
  srcObject : Option Nat
  view : View
  resultText : String
  startButtonText : String
  pendingTimers : Nat
  recognitionsInFlight : Nat
  locationLookups : Nat
deriving DecidableEq

/-- The state when `initializeApp` has run: no stream, both flags false, an empty
collection, no cached position. -/
def Session.initial : Session :=
  { streams := [], stream := none, isScanning := false, scanInterval := none,
    isProcessing := false, scannedNumbers := [], currentPosition := none,
    srcObject := none, view := View.scan, resultText := "Ready to scan",
    startButtonText := "Start Scanner", pendingTimers := 0, recognitionsInFlight := 0,
    locationLookups := 0 }

/-- A JavaScript value as far as `scannedNumbers.includes(number)` is concerned:
the array elements are the objects pushed by `addFoundNumber`, the searched
value is a string primitive. -/
inductive JSValue where
  | str (s : String)
  | obj (entry : ScannedSerial)

/-- The comparison SameValueZero used by `Array.prototype.includes`, with a string
primitive on the right: only a string primitive with the same characters is
the same value; an object never is. -/
def sameValueZeroString : JSValue → String → Bool
  | JSValue.str s, t => decide (s = t)
  | JSValue.obj _, _ => false

/-- The call `scannedNumbers.includes(number)` of line 344: `scannedNumbers` holds
the entry objects, `number` is a string. -/
def includes (scannedNumbers : List ScannedSerial) (number : String) : Bool :=
  scannedNumbers.any (fun entry => sameValueZeroString (JSValue.obj entry) number)

/-- Source function `addFoundNumber(number)` (`src/app.js` lines 342-356); `now`
is the value of `new Date().toISOString()`.  Returns the boolean result and
the session afterwards. -/
def addFoundNumber (s : Session) (number : String) (now : String) : Bool × Session :=
  if !(includes s.scannedNumbers number) then
    (true, { s with scannedNumbers := s.scannedNumbers ++
      [{ number := number, location := s.currentPosition, timestamp := now }] })
  else
    (false, s)

/-- The statement `stream.getTracks().forEach(track => track.stop())` on the stream
object with index `handle`. -/
def stopTracks (streams : List MediaStream) (handle : Nat) : List MediaStream :=
  streams.modify (fun m => { tracks := m.tracks.map (fun _ => { stopped := true }) }) handle

/-- The block `if (stream) { stream.getTracks().forEach(...); stream = null; }`. -/
def releaseStream (s : Session) : Session :=
  match s.stream with
  | some handle => { s with streams := stopTracks s.streams handle, stream := none }
  | none => s

/-- Source function `stopScanning()` (`src/app.js` lines 573-587), on a page whose
`.scan-region` element is present. -/
def stopScanning (s : Session) : Session :=
  let s1 := { s with isScanning := false, isProcessing := false, scanInterval := none }
  let s2 := releaseStream s1
  { s2 with srcObject := none, startButtonText := "Start Scanner" }

/-- Source function `showScanView()` (`src/app.js` lines 164-173). -/
def showScanView (s : Session) : Session :=
  { s with view := View.scan, isScanning := false, isProcessing := false }

/-- Source function `showResultsView()` (`src/app.js` lines 175-340): it renders the
results view from `scannedNumbers` and changes none of the session variables. -/
def showResultsView (s : Session) : Session :=
  { s with view := View.results }

/-- The statement `setTimeout(processFrame, 200)` guarded by `if (isScanning)`. -/
def scheduleNext (s : Session) : Session :=
  if s.isScanning then { s with pendingTimers := s.pendingTimers + 1 } else s

/-- What one cycle ended with. -/
inductive CycleOutcome where
  | refused
  | aborted
  | matched (number : String)
  | duplicate (number : String)
  | noMatch
  | failed
deriving DecidableEq

/-- The loop `for (const word of words)` of `processFrame` (`src/app.js` lines
457-493), including the code after the loop that runs when no word passed
the test of line 461. -/
def scanWords (s : Session) (now : String) : List String → CycleOutcome × Session
  | [] => (CycleOutcome.noMatch, scheduleNext { s with isProcessing := false })
  | word :: rest =>
    let cw := cleanWord word
    if decide (cw.length > 0) && matchesSerialNumberPattern cw then
      match addFoundNumber s cw now with
      | (true, s1) =>
        (CycleOutcome.matched cw, { showResultsView (stopScanning s1) with isProcessing := false })
      | (false, s1) =>
        (CycleOutcome.duplicate cw, scheduleNext { s1 with isProcessing := false })
    else scanWords s now rest

/-- The part of `processFrame` that runs once `worker.recognize` has settled
(`src/app.js` lines 441-502).  `recognized` is `result.data.text`, or `none`
when the call was rejected and control went to the `catch` block. -/
def processFrameResume (s : Session) (recognized : Option String) (now : String) :
    CycleOutcome × Session :=
  match recognized with
  | none =>
    (CycleOutcome.failed, scheduleNext { s with
      resultText := "Processing error. Please try again.", isProcessing := false })
  | some raw =>
    let text := trim raw
    if text.length = 0 then
      (CycleOutcome.noMatch, scheduleNext { s with isProcessing := false })
    else scanWords s now (extractWords text)

/-- What the page and the device supply to one cycle before recognition. -/
structure FrameEnv where
  location : Option Position
  videoWidth : Nat
  videoHeight : Nat
  scanRegionRect : Option DOMRect
  videoRect : DOMRect

/-- The part of `processFrame` up to the call of `worker.recognize` (`src/app.js`
lines 358-441).  The result tells whether a recognition call was issued
(`some roi`) or the function returned before (`none`): refused by the guard
of line 359, or returned from lines 379, 387 or 414, which leave
`isProcessing` set. -/
def processFrameBegin (s : Session) (env : FrameEnv) : Option ROI × Session :=
  if s.srcObject.isNone || !s.isScanning || s.isProcessing then (none, s)
  else
    let s1 := { s with isProcessing := true }
    let s2 :=
      if s1.currentPosition.isNone then
        { s1 with currentPosition := env.location, locationLookups := s1.locationLookups + 1 }
      else s1
    match env.scanRegionRect with
    | none => (none, s2)
    | some scanRegionRect =>
      match computeROI scanRegionRect env.videoRect env.videoWidth env.videoHeight with
      | none => (none, s2)
      | some roi => (some roi, { s2 with recognitionsInFlight := s2.recognitionsInFlight + 1 })

/-- One whole cycle `processFrame()` with the recogniser's answer supplied: the
part before the recognition call followed, when the call was issued, by the
part after it. -/
def processFrame (s : Session) (env : FrameEnv) (recognized : Option String) (now : String) :
    CycleOutcome × Session :=
  if s.srcObject.isNone || !s.isScanning || s.isProcessing then (CycleOutcome.refused, s)
  else
    match processFrameBegin s env with
    | (none, s1) => (CycleOutcome.aborted, s1)
    | (some _, s1) =>
      processFrameResume { s1 with recognitionsInFlight := s1.recognitionsInFlight - 1 }
        recognized now

/-- What the device supplies to one `startCamera()` call: the position lookup, the
presence of the `.scan-region` element, the stream returned for the exact
rear-facing request and for the fallback request (`none`: rejected), and
whether `video.play()` succeeded. -/
structure CameraEnv where
  location : Option Position
  scanRegionPresent : Bool
  rearCamera : Option MediaStream
  anyCamera : Option MediaStream
  playSucceeds : Bool

/-- The `catch` block of `startCamera` (`src/app.js` lines 565-570). -/
def cameraFailed (s : Session) : Session :=
  { s with resultText := "Camera access denied. Please check permissions." }

/-- Source function `startCamera()` (`src/app.js` lines 505-571) up to, and not
including, its final call `processFrame()`. -/
def startCameraAcquire (s : Session) (env : CameraEnv) : Bool × Session :=
  let s1 := releaseStream { s with isScanning := false, isProcessing := false }
  let s2 := { s1 with resultText := "Accessing camera...", currentPosition := env.location,
                      locationLookups := s1.locationLookups + 1 }
  if !env.scanRegionPresent then (false, cameraFailed s2)
  else
    match (match env.rearCamera with | some m => some m | none => env.anyCamera) with
    | none => (false, cameraFailed s2)
    | some m =>
      let s3 := { s2 with streams := s2.streams ++ [m], stream := some s2.streams.length,
                          srcObject := some s2.streams.length }
      if !env.playSucceeds then (false, cameraFailed s3)
      else
        (true, { s3 with isScanning := true, startButtonText := "Stop Scanner",
                         resultText := "Scanning...", isProcessing := false })

/-- Source function `startCamera()` (`src/app.js` lines 505-571): acquisition, then
the first cycle up to its recognition call. -/
def startCamera (s : Session) (env : CameraEnv) (frame : FrameEnv) : Session :=
  match startCameraAcquire s env with
  | (true, s1) => (processFrameBegin s1 frame).2
  | (false, s1) => s1

/-- The click handler of the "Scan Another" button (`src/app.js` lines 328-338). -/
def scanAgain (s : Session) (env : CameraEnv) (frame : FrameEnv) : Session :=
  let s1 := releaseStream { s with isScanning := false, isProcessing := false }
  startCamera (showScanView s1) env frame

/-- The click handler of the start button (`src/app.js` lines 635-642). -/
def startButtonClick (s : Session) (env : CameraEnv) (frame : FrameEnv) : Session :=
  if s.isScanning then showResultsView (stopScanning s) else startCamera s env frame

/-- The method `Array.prototype.splice(index, 1)` for a non-negative integer index:
the element at `index` is removed when there is one. -/
def splice1 (xs : List ScannedSerial) (index : Nat) : List ScannedSerial :=
  xs.eraseIdx index

/-- Source function `window.deleteSerialNumber(index)` (`src/app.js` lines 717-727). -/
def deleteSerialNumber (s : Session) (index : Nat) (env : CameraEnv) (frame : FrameEnv) :
    Session :=
  let s1 := { s with scannedNumbers := splice1 s.scannedNumbers index }
  if s1.scannedNumbers.length = 0 then startCamera (showScanView s1) env frame
  else showResultsView s1

/-- A timer armed by `setTimeout(processFrame, 200)` fires and calls `processFrame`. -/
def timerFires (s : Session) (frame : FrameEnv) : Session :=
  (processFrameBegin { s with pendingTimers := s.pendingTimers - 1 } frame).2

/-- A pending `worker.recognize` call settles and the cycle continues. -/
def recognitionSettles (s : Session) (recognized : Option String) (now : String) : Session :=
  (processFrameResume { s with recognitionsInFlight := s.recognitionsInFlight - 1 }
    recognized now).2

/-- One event of the scan pipeline.  Every handler runs as one event: the awaits
inside `startCamera` are not interleaved with other events, so two overlapping
`startCamera` calls are not among these events. -/
inductive Step : Session → Session → Prop where
  | timer (s : Session) (frame : FrameEnv) (h : 0 < s.pendingTimers) :
      Step s (timerFires s frame)
  | recognition (s : Session) (recognized : Option String) (now : String)
      (h : 0 < s.recognitionsInFlight) :
      Step s (recognitionSettles s recognized now)
  | startButton (s : Session) (env : CameraEnv) (frame : FrameEnv) :
      Step s (startButtonClick s env frame)
  | scanAgainClick (s : Session) (env : CameraEnv) (frame : FrameEnv) :
      Step s (scanAgain s env frame)
  | delete (s : Session) (index : Nat) (env : CameraEnv) (frame : FrameEnv) :
      Step s (deleteSerialNumber s index env frame)

/-- The session states reachable from the initial state by pipeline events. -/
inductive Reachable : Session → Prop where
  | init : Reachable Session.initial
  | step {s t : Session} (hs : Reachable s) (hst : Step s t) : Reachable t

/-! ## Sample inputs -/

/-- A device with a rear camera of one track, no position fix, and the page's
`.scan-region` element present. -/
def sampleCamera : CameraEnv :=
  { location := none, scanRegionPresent := true,
    rearCamera := some { tracks := [{ stopped := false }] }, anyCamera := none,
    playSucceeds := true }

/-- The geometry mocked in `src/__tests__/app.test.js` (lines 59-76): a 1280x720
frame displayed at 1280x720 and a 640x100 scan region at (320, 310). -/
def sampleFrame : FrameEnv :=
  { location := none, videoWidth := 1280, videoHeight := 720,
    scanRegionRect := some { left := 320, top := 310, width := 640, height := 100 },
    videoRect := { left := 0, top := 0, width := 1280, height := 720 } }

/-- The session after the start button was pressed on a fresh page. -/
def scanStarted : Session :=
  startButtonClick Session.initial sampleCamera sampleFrame

/-- The session after the first recognition returned `"2310211025"`. -/
def scanOnce : Session :=
  recognitionSettles scanStarted (some "2310211025") "2024-01-01T00:00:00.000Z"

/-- The session after "Scan Another" was pressed in the results view. -/
def scanRestarted : Session :=
  scanAgain scanOnce sampleCamera sampleFrame

/-- The session after the second recognition returned `"2310211025"` again. -/
def scanTwice : Session :=
  recognitionSettles scanRestarted (some "2310211025") "2024-01-01T00:00:05.000Z"

/-! ## Specification-level predicates -/

/-- A string of exactly ten characters, all of them ASCII digits: the shape
`^\d{10}$`. -/
def IsTenDigits (number : String) : Prop :=
  number.length = 10 ∧ ∀ c ∈ number.data, 48 ≤ c.toNat ∧ c.toNat ≤ 57

instance (number : String) : Decidable (IsTenDigits number) := by
  unfold IsTenDigits
  exact inferInstance

/-- The test of line 461 applied to a word: its digits-only form is non-empty and
passes `matchesSerialNumberPattern`. -/
def isValidWord (word : String) : Bool :=
  decide ((cleanWord word).length > 0) && matchesSerialNumberPattern (cleanWord word)

/-- The numbers held by the collection, in order. -/
def numbersOf (s : Session) : List String :=
  s.scannedNumbers.map (fun entry => entry.number)

/-- The entry `addFoundNumber` builds for `number` in session `s` at time `now`. -/
def newEntry (s : Session) (number : String) (now : String) : ScannedSerial :=
  { number := number, location := s.currentPosition, timestamp := now }

/-- The digits-only form of the first token of the recognised text that passes
the validity test of line 461, if there is one. -/
def firstValid (recognized : String) : Option String :=
  ((tokenize recognized).find? isValidWord).map cleanWord

/-- The digits-only form of the first token of the recognised text that is a
valid serial and whose number no entry of the collection carries: the token
that wins the cycle according to the specification's wording. -/
def firstValidUnseen (s : Session) (recognized : String) : Option String :=
  ((tokenize recognized).find?
    (fun word => isValidWord word && !(numbersOf s).contains (cleanWord word))).map cleanWord

/-- A session that is scanning, has a recognition call pending and already holds
the serial `"2310211025"`. -/
def holdingOne : Session :=
  { Session.initial with
    isScanning := true, isProcessing := true, recognitionsInFlight := 1,
    scannedNumbers :=
      [{ number := "2310211025", location := none, timestamp := "2024-01-01T00:00:00.000Z" }] }

/-! ## More sample inputs -/

/-- The geometry of `sampleFrame` on a page that has no `.scan-region` element. -/
def frameWithoutRegion : FrameEnv :=
  { sampleFrame with scanRegionRect := none }

/-- The geometry of `sampleFrame` with a scan region of zero width and height. -/
def frameZeroRegion : FrameEnv :=
  { sampleFrame with
    scanRegionRect := some { left := 320, top := 310, width := 0, height := 0 } }

/-- The session after the start button was pressed on a page whose scan region has
zero width and height: the first cycle returns on line 387. -/
def scanStalled : Session :=
  startButtonClick Session.initial sampleCamera frameZeroRegion

/-- The session after the start button was pressed on a page without scan region:
the first cycle returns on line 379. -/
def scanStalledNoRegion : Session :=
  timerFires { (startCameraAcquire Session.initial sampleCamera).2 with pendingTimers := 1 }
    frameWithoutRegion

/-- The session after the start button was pressed a second time (which stops the
scanner) while the first recognition call was still pending. -/
def scanStopped : Session :=
  startButtonClick scanStarted sampleCamera sampleFrame

/-- The session `scanStopped` at the moment `startCamera`, called by "Scan
Another", is about to make its call `processFrame()`. -/
def scanReacquired : Session :=
  (startCameraAcquire (showScanView (releaseStream
    { scanStopped with isScanning := false, isProcessing := false })) sampleCamera).2

/-- The session after "Scan Another" was pressed in `scanStopped`. -/
def scanResumedEarly : Session :=
  scanAgain scanStopped sampleCamera sampleFrame

/-- A device as `sampleCamera` whose position lookup succeeds. -/
def cameraWithFix : CameraEnv :=
  { sampleCamera with location := some { lat := 45, lng := -75, accuracy := 10 } }

/-- The session after the start button was pressed on a device with a position fix. -/
def scanStartedWithFix : Session :=
  startButtonClick Session.initial cameraWithFix sampleFrame

/-- The session after the scanner of `scanStartedWithFix` was stopped and restarted
on a device whose position lookup now fails. -/
def scanRestartedWithoutFix : Session :=
  scanAgain (startButtonClick scanStartedWithFix sampleCamera sampleFrame)
    sampleCamera sampleFrame

/-- The geometry of `sampleFrame` with the scan region to the right of the frame:
the resulting width is negative and the cycle returns on line 414. -/
def frameRegionOutside : FrameEnv :=
  { sampleFrame with
    scanRegionRect := some { left := 2000, top := 310, width := 640, height := 100 } }

/-- The session after the start button was pressed with the scan region outside
the frame. -/
def scanStalledOutside : Session :=
  startButtonClick Session.initial sampleCamera frameRegionOutside

/-- The session `scanResumedEarly` after one of its two pending recognition calls
returned an empty text: a timer is armed and the other call is still pending. -/
def scanIdleWithPending : Session :=
  recognitionSettles scanResumedEarly (some "") "2024-01-01T00:00:03.000Z"

/-- A device that refuses both camera requests. -/
def cameraDenied : CameraEnv :=
  { sampleCamera with rearCamera := none, anyCamera := none }

/-- The session after "Scan Another" was pressed in `scanStopped` on a device that
refuses the camera: the scan view is shown, the scanner is not running and the
first recognition call is still pending. -/
def scanStoppedInScanView : Session :=
  scanAgain scanStopped cameraDenied sampleFrame

/-! ## Asset assignment (`src/deal-scanner.js`, `src/frontend/deal-scanner.js`) -/

/-- An asset slot of a deal. -/
structure Asset where
  id : Option String
  Model : String
  Model_Value : String
deriving DecidableEq

/-- The object `scannedSerials`: its own properties, keyed by slot index, each
holding an array of serials. -/
abbrev SerialTable := List (Nat × List String)

/-- The property read `scannedSerials[index]`: the value of the first pair with
that key, `none` (that is `undefined`) when there is none. -/
def SerialTable.get (table : SerialTable) (index : Nat) : Option (List String) :=
  (table.find? (fun entry => entry.1 == index)).map (fun entry => entry.2)

/-- The fields of a `DealScanner` instance (constructor, lines 6-9 of both files). -/
structure DealScanner where
  selectedDeal : Option String
  assets : List Asset
  currentAssetIndex : Nat
  scannedSerials : SerialTable
deriving DecidableEq

/-- The expression `(this.scannedSerials[index] || [])`: an array is truthy even
when empty, `undefined` is replaced by the empty array. -/
def DealScanner.serialsOrEmpty (d : DealScanner) (index : Nat) : List String :=
  match d.scannedSerials.get index with
  | some serials => serials
  | none => []

/-- Source method `isAllSerialsFilled()` (`src/deal-scanner.js` lines 330-334 and
`src/frontend/deal-scanner.js` lines 539-543, identical): `assets.every` over
the slots with their indices `0 .. assets.length - 1`. -/
def DealScanner.isAllSerialsFilled (d : DealScanner) : Bool :=
  (List.range d.assets.length).all (fun index => decide ((d.serialsOrEmpty index).length > 0))

/-- A deal with two asset slots and the given serial table. -/
def twoSlotDeal (table : SerialTable) : DealScanner :=
  { selectedDeal := some "deal-1",
    assets := [{ id := none, Model := "Model 1", Model_Value := "AC-100" },
               { id := none, Model := "Model 2", Model_Value := "AC-200" }],
    currentAssetIndex := 0, scannedSerials := table }

/-- A device that grants the rear camera but on which `video.play()` is rejected. -/
def cameraPlayFails : CameraEnv :=
  { sampleCamera with playSucceeds := false }

/-! ## Assignment and submission (`src/deal-scanner.js`, `src/frontend/deal-scanner.js`) -/

/-- The property write `scannedSerials[index] = serials`: the value of an existing
property is replaced, a new property is added otherwise. -/
def SerialTable.set (table : SerialTable) (index : Nat) (serials : List String) : SerialTable :=
  if (table.get index).isSome then
    table.map (fun entry => if entry.1 == index then (index, serials) else entry)
  else table ++ [(index, serials)]

/-- The two statements shared by `addSerialNumber` and the `handleScannedSerial`
handler: `if (!this.scannedSerials[i]) this.scannedSerials[i] = [];` followed by
`this.scannedSerials[i].push(serialNumber)` for `i = this.currentAssetIndex`.
An array, even an empty one, is truthy. -/
def DealScanner.pushSerial (d : DealScanner) (serialNumber : String) : DealScanner :=
  let table1 :=
    if (d.scannedSerials.get d.currentAssetIndex).isNone then
      d.scannedSerials.set d.currentAssetIndex []
    else d.scannedSerials
  let current := match table1.get d.currentAssetIndex with
    | some serials => serials
    | none => []
  { d with scannedSerials := table1.set d.currentAssetIndex (current ++ [serialNumber]) }

/-- Source method `addSerialNumber(serialNumber)` (`src/deal-scanner.js` lines
296-302, `src/frontend/deal-scanner.js` lines 416-422, identical); the call of
`renderAssetScanner()` changes no field. -/
def DealScanner.addSerialNumber (d : DealScanner) (serialNumber : String) : DealScanner :=
  d.pushSerial serialNumber

/-- Source method `startScanning(assetIndex)` as far as the fields go
(`src/frontend/deal-scanner.js` line 548, `src/deal-scanner.js` line 337). -/
def DealScanner.startScanning (d : DealScanner) (assetIndex : Nat) : DealScanner :=
  { d with currentAssetIndex := assetIndex }

/-- The handler `window.handleScannedSerial` installed by `startScanning`
(`src/frontend/deal-scanner.js` lines 556-574): it reads
`this.currentAssetIndex` when it runs. -/
def DealScanner.handleScannedSerial (d : DealScanner) (serialNumber : String) : DealScanner :=
  d.pushSerial serialNumber

/-- An element of the request body built by `updateDealAssets`
(`src/zoho-crm-api.js` lines 93-96). -/
structure AssetUpdate where
  id : Option String
  Serial_Numbers : List String
deriving DecidableEq

/-- The array `updatedAssets` of `submitScannedSerials` in `src/deal-scanner.js`
(lines 306-309): every asset with `Serial_Numbers: this.scannedSerials[index] || []`. -/
def DealScanner.updatedAssets (d : DealScanner) : List (Asset × List String) :=
  d.assets.enum.map (fun entry => (entry.2, d.serialsOrEmpty entry.1))

/-- The `data` array that `updateDealAssets(dealId, assets)` sends
(`src/zoho-crm-api.js` lines 92-97). -/
def updateDealAssetsBody (assets : List (Asset × List String)) : List AssetUpdate :=
  assets.map (fun asset => { id := asset.1.id, Serial_Numbers := asset.2 })

/-- The payload of the array lineage: what `submitScannedSerials` of
`src/deal-scanner.js` hands to the update collaborator. -/
def DealScanner.arrayPayload (d : DealScanner) : List AssetUpdate :=
  updateDealAssetsBody d.updatedAssets

/-- The field name built by the template `Serial_${index + 1}`. -/
def serialField (index : Nat) : String :=
  "Serial_" ++ toString (index + 1)

/-- A CRM record: its `id` and its other fields in the order they were assigned. -/
structure DealRecord where
  id : Option String
  fields : List (String × String)
deriving DecidableEq

/-- The object `dealData` of `submitScannedSerials` in
`src/frontend/deal-scanner.js` (lines 427-436): `{id: this.selectedDeal}`, then
for every slot index whose list exists and is non-empty the field
`Serial_${index + 1}` with the first element of the list. -/
def DealScanner.dealData (d : DealScanner) : DealRecord :=
  { id := d.selectedDeal,
    fields := (List.range d.assets.length).filterMap (fun index =>
      match d.scannedSerials.get index with
      | some (first :: _) => some (serialField index, first)
      | _ => none) }

/-- The record that `updateDeal(dealId, updateData)` sends
(`src/frontend/zoho-crm-api.js` lines 206-213): `{id: dealId, ...updateData.data[0]}`,
in which the spread own property `id` replaces `dealId`. -/
def updateDealBody (_dealId : Option String) (dealData : DealRecord) : DealRecord :=
  { id := dealData.id, fields := dealData.fields }

/-- The payload of the single-value lineage. -/
def DealScanner.singleValuePayload (d : DealScanner) : DealRecord :=
  updateDealBody d.selectedDeal d.dealData

/-- How the update collaborator answers: the call is rejected (it throws), or it
returns a response that has or lacks the property `data`. -/
inductive UpdateAnswer where
  | throws
  | responds (hasData : Bool)
deriving DecidableEq

/-- The assignments `selectedDeal = null; assets = []; scannedSerials = {}`. -/
def DealScanner.reset (d : DealScanner) : DealScanner :=
  { d with selectedDeal := none, assets := [], scannedSerials := [] }

/-- The state after `submitScannedSerials()` has run, and whether it armed the
2000 ms timer whose callback still has to reset the state. -/
structure SubmitResult where
  state : DealScanner
  resetPending : Bool
  succeeded : Bool
deriving DecidableEq

/-- Source method `submitScannedSerials()` of `src/deal-scanner.js` (lines 304-328):
any answer of `updateDealAssets` that is not an exception is a success, and
the state is reset at once (the timer armed afterwards only touches the page). -/
def DealScanner.submitArrays (d : DealScanner) (answer : UpdateAnswer) : SubmitResult :=
  match answer with
  | UpdateAnswer.throws => { state := d, resetPending := false, succeeded := false }
  | UpdateAnswer.responds _ => { state := d.reset, resetPending := false, succeeded := true }

/-- Source method `submitScannedSerials()` of `src/frontend/deal-scanner.js` (lines
424-537): an exception of `updateDeal`, or a response without `data`, goes to
the `catch` block; otherwise the 2000 ms timer is armed whose callback resets
the state. -/
def DealScanner.submitSingleValue (d : DealScanner) (answer : UpdateAnswer) : SubmitResult :=
  match answer with
  | UpdateAnswer.responds true => { state := d, resetPending := true, succeeded := true }
  | _ => { state := d, resetPending := false, succeeded := false }

/-- The callback of the 2000 ms timer armed by a successful submission in
`src/frontend/deal-scanner.js` (lines 484-492), as far as the fields go. -/
def DealScanner.resetTimerFires (d : DealScanner) : DealScanner :=
  d.reset

/-- A deal record as returned by the CRM, with its four model fields; an absent
field is `none`. -/
structure CrmDeal where
  id : String
  Model_1 : Option String
  Model_2 : Option String
  Model_3 : Option String
  Model_4 : Option String
deriving DecidableEq

/-- The property read `deal[`Model_${i}`]` for `i` from 1 to 4. -/
def CrmDeal.model (deal : CrmDeal) (i : Nat) : Option String :=
  match i with
  | 1 => deal.Model_1
  | 2 => deal.Model_2
  | 3 => deal.Model_3
  | 4 => deal.Model_4
  | _ => none

/-- The loop of `fetchActiveDeals` (`src/frontend/zoho-crm-api.js` lines 57-66):
for `i` from 1 to 4, a truthy `Model_i` (present and not the empty string)
pushes `{Model: `Model ${i}`, Model_Value: modelValue}`. -/
def CrmDeal.models (deal : CrmDeal) : List Asset :=
  [1, 2, 3, 4].filterMap (fun i =>
    match deal.model i with
    | some modelValue =>
      if modelValue ≠ "" then
        some { id := none, Model := "Model " ++ toString i, Model_Value := modelValue }
      else none
    | none => none)

/-- Source method `handleDealSelection(dealId)` of `src/frontend/deal-scanner.js`
(lines 231-247) when the deal is found among the mapped deals. -/
def DealScanner.handleDealSelection (d : DealScanner) (deal : CrmDeal) : DealScanner :=
  { d with selectedDeal := some deal.id, assets := deal.models }

/-- A CRM deal whose first model field is empty and whose second is filled. -/
def dealWithSecondModelOnly : CrmDeal :=
  { id := "5665332000014936002", Model_1 := none, Model_2 := some "AC-200",
    Model_3 := none, Model_4 := none }

/-- A fresh `DealScanner` (constructor, lines 6-10). -/
def DealScanner.fresh : DealScanner :=
  { selectedDeal := none, assets := [], currentAssetIndex := 0, scannedSerials := [] }

/-! ## Backend proxy (`src/backend/server.js`) -/

/-- The headers of an outgoing request: Node keeps them under their lower-cased
name, one value per name. -/
abbrev Headers := List (String × String)

/-- The lower-cased form of a header name. -/
def lowerCase (name : String) : String :=
  ⟨name.data.map Char.toLower⟩

/-- The method `proxyReq.removeHeader(name)`. -/
def removeHeader (headers : Headers) (name : String) : Headers :=
  headers.filter (fun header => header.1 != lowerCase name)

/-- The method `proxyReq.setHeader(name, value)`: the value replaces any value
held under that name. -/
def setHeader (headers : Headers) (name value : String) : Headers :=
  removeHeader headers name ++ [(lowerCase name, value)]

/-- The method `proxyReq.getHeader(name)`. -/
def getHeader (headers : Headers) (name : String) : Option String :=
  (headers.find? (fun header => header.1 == lowerCase name)).map (fun header => header.2)

/-- The parts of the incoming request `req` that `onProxyReq` reads: the method and
the token attached by the token middleware (`none`: no `zohoToken`). -/
structure ProxiedRequest where
  method : String
  zohoToken : Option String
deriving DecidableEq

/-- The `Authorization` value chosen on lines 241-243. -/
def authHeader (method token : String) : String :=
  if method = "PUT" then "Bearer " ++ token else "Zoho-oauthtoken " ++ token

/-- Source function `zohoProxyOptions.onProxyReq(proxyReq, req)` (`src/backend/server.js`
lines 222-255) on the headers of `proxyReq`; a token is truthy when it is
present and not the empty string. -/
def onProxyReq (proxyHeaders : Headers) (req : ProxiedRequest) : Headers :=
  let h1 := removeHeader proxyHeaders "authorization"
  let h2 := removeHeader h1 "Authorization"
  let h3 := removeHeader h2 "AUTHORIZATION"
  let h4 := removeHeader h3 "connection"
  let h5 := removeHeader h4 "Connection"
  let h6 := removeHeader h5 "cache-control"
  let h7 := removeHeader h6 "pragma"
  let h8 := match req.zohoToken with
    | some token =>
      if token ≠ "" then setHeader h7 "Authorization" (authHeader req.method token) else h7
    | none => h7
  let h9 := setHeader h8 "Content-Type" "application/json"
  let h10 := setHeader h9 "Accept" "application/json"
  let h11 := setHeader h10 "Connection" "keep-alive"
  let h12 := setHeader h11 "Cache-Control" "no-store, no-cache, must-revalidate, private"
  setHeader h12 "Pragma" "no-cache"

/-! ## Rectangles and pixels -/

/-- The unpadded, rounded scan rectangle `exactScanX`, `exactScanY`,
`exactScanWidth`, `exactScanHeight` of `processFrame` (`src/app.js` lines
395-398), which line 408 logs as `exact`. -/
def exactScanRegion (scanRegionRect videoRect : DOMRect) (frameWidth frameHeight : Nat) : ROI :=
  { x := exactScanStart scanRegionRect.left videoRect.left
      (scaleFactor frameWidth videoRect.width),
    y := exactScanStart scanRegionRect.top videoRect.top
      (scaleFactor frameHeight videoRect.height),
    width := exactScanExtent scanRegionRect.width (scaleFactor frameWidth videoRect.width),
    height := exactScanExtent scanRegionRect.height (scaleFactor frameHeight videoRect.height) }

/-- The point `(px, py)` lies inside the rectangle: `x <= px < x + width` and
`y <= py < y + height`, with the comparisons of JavaScript numbers. -/
def ROI.contains (r : ROI) (px py : ℚ) : Bool :=
  JSNum.le r.x (JSNum.fin px) && JSNum.lt (JSNum.fin px) (JSNum.add r.x r.width) &&
  JSNum.le r.y (JSNum.fin py) && JSNum.lt (JSNum.fin py) (JSNum.add r.y r.height)

/-! ## Candidates and the padding stage -/

/-- A serial candidate in the sense of the data model: a token after stripping all
non-digit characters, which is what line 461 passes to
`matchesSerialNumberPattern`. -/
def IsSerialCandidate (candidate : String) : Prop :=
  ∃ token : String, candidate = cleanWord token

/-- Lines 401-415 of `processFrame` on an exact rectangle: the padded starts, the
padded and capped extents and the check `scanWidth <= 0 || scanHeight <= 0`,
for whatever values `exactScanX`, `exactScanY`, `exactScanWidth` and
`exactScanHeight` the lines 391-398 produced. -/
def paddedRegion (exact : ROI) (frameWidth frameHeight : Nat) : Option ROI :=
  let scanX := paddedStart exact.x
  let scanY := paddedStart exact.y
  let scanWidth := paddedExtent frameWidth scanX exact.width
  let scanHeight := paddedExtent frameHeight scanY exact.height
  if JSNum.le scanWidth (JSNum.fin 0) || JSNum.le scanHeight (JSNum.fin 0) then none
  else some { x := scanX, y := scanY, width := scanWidth, height := scanHeight }

end ScannerApp

/-! ## Lemmas on the text layer -/

namespace ScannerApp

theorem isDigit09_iff (c : Char) : isDigit09 c = true ↔ 48 ≤ c.toNat ∧ c.toNat ≤ 57 := by
  simp [isDigit09]

theorem replaceNonDigits_eq_filter (l : List Char) :
    replaceNonDigits l = l.filter isDigit09 := by
  induction l with
  | nil => rfl
  | cons c cs ih =>
    cases hc : isDigit09 c <;> simp [replaceNonDigits, hc, ih]

theorem replaceNonDigits_idem (l : List Char) :
    replaceNonDigits (replaceNonDigits l) = replaceNonDigits l := by
  simp [replaceNonDigits_eq_filter]

theorem matchDigits_eq_some_nil (n : Nat) (l : List Char) :
    matchDigits n l = some [] ↔ l.length = n ∧ ∀ c ∈ l, isDigit09 c = true := by
  induction n generalizing l with
  | zero =>
    cases l with
    | nil => simp [matchDigits]
    | cons c cs => simp [matchDigits]
  | succ n ih =>
    cases l with
    | nil => simp [matchDigits]
    | cons c cs =>
      cases hc : isDigit09 c <;> simp [matchDigits, hc, ih]

theorem serialNumberPatternTest_iff (l : List Char) :
    serialNumberPatternTest l = true ↔ l.length = 10 ∧ ∀ c ∈ l, isDigit09 c = true := by
  rw [← matchDigits_eq_some_nil]
  unfold serialNumberPatternTest
  cases h : matchDigits 10 l with
  | none => simp
  | some rest => cases rest <;> simp

theorem isTenDigits_iff (number : String) :
    IsTenDigits number ↔ number.data.length = 10 ∧ ∀ c ∈ number.data, isDigit09 c = true := by
  unfold IsTenDigits
  simp only [isDigit09_iff, String.length]

theorem matchesSerialNumberPattern_iff_cleanWord (text : String) :
    matchesSerialNumberPattern text = true ↔ IsTenDigits (cleanWord text) := by
  rw [isTenDigits_iff]
  unfold matchesSerialNumberPattern cleanWord
  rw [serialNumberPatternTest_iff]

theorem cleanWord_cleanWord (text : String) : cleanWord (cleanWord text) = cleanWord text := by
  unfold cleanWord
  simp [replaceNonDigits_idem]

theorem isValidWord_iff (word : String) :
    isValidWord word = true ↔ IsTenDigits (cleanWord word) := by
  unfold isValidWord
  rw [Bool.and_eq_true, matchesSerialNumberPattern_iff_cleanWord, cleanWord_cleanWord]
  constructor
  · exact fun h => h.2
  · intro h
    refine ⟨?_, h⟩
    have := h.1
    simp [this]

end ScannerApp

/-! ## Lemmas on word splitting -/

namespace ScannerApp

theorem splitOnP_pieces_free (p : Char → Bool) (l : List Char) :
    ∀ t ∈ l.splitOnP p, ∀ c ∈ t, p c = false := by
  induction l with
  | nil => simp [List.splitOnP_nil]
  | cons x xs ih =>
    rw [List.splitOnP_cons]
    cases hx : p x with
    | true =>
      simp only [if_true]
      intro t ht
      rcases List.mem_cons.mp ht with h | h
      · subst h; simp
      · exact ih t h
    | false =>
      simp only [Bool.false_eq_true, if_false]
      cases hs : xs.splitOnP p with
      | nil => exact absurd hs (List.splitOnP_ne_nil p xs)
      | cons h t =>
        rw [hs] at ih
        intro u hu
        simp only [List.modifyHead_cons, List.mem_cons] at hu
        rcases hu with hu | hu
        · subst hu
          intro c hc
          rcases List.mem_cons.mp hc with hc | hc
          · subst hc; exact hx
          · exact ih h (List.mem_cons_self _ _) c hc
        · exact ih u (List.mem_cons_of_mem _ hu)

theorem splitGo_splitOnP (l : List Char) :
    (∃ h t u, splitGo false l = h :: t ∧ l.splitOnP isJSWhiteSpace = h :: u ∧
        t.filter (fun run => !run.isEmpty) = u.filter (fun run => !run.isEmpty)) ∧
      (splitGo true l).filter (fun run => !run.isEmpty) =
        (l.splitOnP isJSWhiteSpace).filter (fun run => !run.isEmpty) := by
  induction l with
  | nil =>
    refine ⟨⟨[], [], [], ?_, ?_, rfl⟩, ?_⟩ <;> simp [splitGo, List.splitOnP_nil]
  | cons c cs ih =>
    obtain ⟨⟨h, t, u, h1, h2, h3⟩, h4⟩ := ih
    rw [List.splitOnP_cons]
    cases hc : isJSWhiteSpace c with
    | true =>
      refine ⟨⟨[], splitGo true cs, cs.splitOnP isJSWhiteSpace, ?_, ?_, h4⟩, ?_⟩
      · simp [splitGo, hc]
      · simp
      · simp [splitGo, hc, h4]
    | false =>
      refine ⟨⟨c :: h, t, u, ?_, ?_, h3⟩, ?_⟩
      · simp [splitGo, hc, h1]
      · simp [h2]
      · simp [splitGo, hc, h1, h2, h3]

theorem splitGo_filter_eq_runs (l : List Char) :
    (splitGo false l).filter (fun run => !run.isEmpty) = maximalNonWhiteSpaceRuns l := by
  obtain ⟨⟨h, t, u, h1, h2, h3⟩, _⟩ := splitGo_splitOnP l
  unfold maximalNonWhiteSpaceRuns
  rw [h1, h2]
  simp [List.filter_cons, h3]

theorem runs_dropWhile (l : List Char) :
    maximalNonWhiteSpaceRuns (l.dropWhile isJSWhiteSpace) = maximalNonWhiteSpaceRuns l := by
  induction l with
  | nil => rfl
  | cons c cs ih =>
    cases hc : isJSWhiteSpace c with
    | true =>
      rw [List.dropWhile_cons_of_pos hc, ih]
      unfold maximalNonWhiteSpaceRuns
      rw [List.splitOnP_cons]
      simp [hc]
    | false =>
      rw [List.dropWhile_cons_of_neg (by simp [hc])]

theorem splitOnP_concat_sep (l : List Char) (c : Char) (hc : isJSWhiteSpace c = true) :
    (l ++ [c]).splitOnP isJSWhiteSpace = l.splitOnP isJSWhiteSpace ++ [[]] := by
  induction l with
  | nil => simp [List.splitOnP_cons, List.splitOnP_nil, hc]
  | cons x xs ih =>
    rw [List.cons_append, List.splitOnP_cons, List.splitOnP_cons, ih]
    cases hx : isJSWhiteSpace x with
    | true => simp
    | false =>
      cases hs : xs.splitOnP isJSWhiteSpace with
      | nil => exact absurd hs (List.splitOnP_ne_nil _ xs)
      | cons h t => simp

theorem runs_concat_sep (l : List Char) (c : Char) (hc : isJSWhiteSpace c = true) :
    maximalNonWhiteSpaceRuns (l ++ [c]) = maximalNonWhiteSpaceRuns l := by
  unfold maximalNonWhiteSpaceRuns
  rw [splitOnP_concat_sep l c hc]
  simp

theorem runs_rdropWhile (l : List Char) :
    maximalNonWhiteSpaceRuns (l.rdropWhile isJSWhiteSpace) = maximalNonWhiteSpaceRuns l := by
  induction l using List.reverseRecOn with
  | nil => rfl
  | append_singleton xs x ih =>
    rw [List.rdropWhile_concat]
    cases hx : isJSWhiteSpace x with
    | true => simp [ih, runs_concat_sep xs x hx]
    | false => simp

theorem runs_trim (text : String) :
    maximalNonWhiteSpaceRuns (trim text).data = maximalNonWhiteSpaceRuns text.data := by
  unfold trim
  simp only
  rw [runs_rdropWhile, runs_dropWhile]

theorem extractWords_data (text : String) :
    (extractWords text).map String.data = maximalNonWhiteSpaceRuns text.data := by
  rw [← splitGo_filter_eq_runs]
  unfold extractWords splitWhiteSpace
  generalize splitGo false text.data = pieces
  induction pieces with
  | nil => rfl
  | cons x xs ih =>
    have hlen : (String.mk x).length = x.length := rfl
    cases x with
    | nil => simpa [List.filter_cons, hlen] using ih
    | cons a as => simpa [List.filter_cons, hlen] using ih

theorem tokenize_data (recognized : String) :
    (tokenize recognized).map String.data = maximalNonWhiteSpaceRuns recognized.data := by
  unfold tokenize
  simp only
  split
  · rename_i h
    rw [← runs_trim]
    have hd : (trim recognized).data = [] :=
      List.length_eq_zero.mp h
    rw [hd]
    simp [maximalNonWhiteSpaceRuns, List.splitOnP_nil]
  · rw [extractWords_data, runs_trim]

theorem runs_nonempty_free (l : List Char) :
    ∀ t ∈ maximalNonWhiteSpaceRuns l, t ≠ [] ∧ ∀ c ∈ t, isJSWhiteSpace c = false := by
  intro t ht
  unfold maximalNonWhiteSpaceRuns at ht
  rw [List.mem_filter] at ht
  refine ⟨?_, splitOnP_pieces_free _ l t ht.1⟩
  intro h
  have := ht.2
  simp [h] at this

end ScannerApp

/-! ## Lemmas on the collection store and the cycle -/

namespace ScannerApp

theorem includes_eq_false (xs : List ScannedSerial) (number : String) :
    includes xs number = false := by
  unfold includes
  induction xs with
  | nil => rfl
  | cons x xs _ => simp [List.any_cons, sameValueZeroString]

theorem addFoundNumber_eq (s : Session) (number now : String) :
    addFoundNumber s number now =
      (true, { s with scannedNumbers := s.scannedNumbers ++ [newEntry s number now] }) := by
  simp [addFoundNumber, includes_eq_false, newEntry]

theorem scheduleNext_scannedNumbers (s : Session) :
    (scheduleNext s).scannedNumbers = s.scannedNumbers := by
  unfold scheduleNext
  split <;> rfl

theorem releaseStream_scannedNumbers (s : Session) :
    (releaseStream s).scannedNumbers = s.scannedNumbers := by
  unfold releaseStream
  split <;> rfl

theorem stopScanning_scannedNumbers (s : Session) :
    (stopScanning s).scannedNumbers = s.scannedNumbers := by
  simp [stopScanning, releaseStream_scannedNumbers]

theorem processFrameBegin_scannedNumbers (s : Session) (env : FrameEnv) :
    (processFrameBegin s env).2.scannedNumbers = s.scannedNumbers := by
  unfold processFrameBegin
  split
  · rfl
  · simp only
    split
    · split <;> rfl
    · split <;> split <;> rfl

theorem startCameraAcquire_scannedNumbers (s : Session) (env : CameraEnv) :
    (startCameraAcquire s env).2.scannedNumbers = s.scannedNumbers := by
  unfold startCameraAcquire
  simp only
  split
  · simp [cameraFailed, releaseStream_scannedNumbers]
  · split
    · simp [cameraFailed, releaseStream_scannedNumbers]
    · split <;> simp [cameraFailed, releaseStream_scannedNumbers]

theorem startCamera_scannedNumbers (s : Session) (env : CameraEnv) (frame : FrameEnv) :
    (startCamera s env frame).scannedNumbers = s.scannedNumbers := by
  unfold startCamera
  have h := startCameraAcquire_scannedNumbers s env
  split
  · rename_i s1 heq
    rw [heq] at h
    rw [processFrameBegin_scannedNumbers]
    exact h
  · rename_i s1 heq
    rw [heq] at h
    exact h

theorem scanWords_find (s : Session) (now : String) (words : List String) :
    scanWords s now words =
      match words.find? isValidWord with
      | none => (CycleOutcome.noMatch, scheduleNext { s with isProcessing := false })
      | some word =>
        match addFoundNumber s (cleanWord word) now with
        | (true, s1) =>
          (CycleOutcome.matched (cleanWord word),
            { showResultsView (stopScanning s1) with isProcessing := false })
        | (false, s1) =>
          (CycleOutcome.duplicate (cleanWord word), scheduleNext { s1 with isProcessing := false })
          := by
  induction words with
  | nil => rfl
  | cons word rest ih =>
    have hv : (decide ((cleanWord word).length > 0) &&
        matchesSerialNumberPattern (cleanWord word)) = isValidWord word := rfl
    unfold scanWords
    simp only [hv, List.find?_cons]
    cases h : isValidWord word with
    | true => simp
    | false => simp [ih]

theorem processFrameResume_eq_scanWords (s : Session) (raw now : String) :
    processFrameResume s (some raw) now = scanWords s now (tokenize raw) := by
  unfold processFrameResume tokenize
  simp only
  split
  · rfl
  · rfl

theorem resume_of_firstValid_none (s : Session) (raw now : String)
    (h : firstValid raw = none) :
    processFrameResume s (some raw) now =
      (CycleOutcome.noMatch, scheduleNext { s with isProcessing := false }) := by
  rw [processFrameResume_eq_scanWords, scanWords_find]
  unfold firstValid at h
  rw [Option.map_eq_none'] at h
  rw [h]

theorem resume_of_firstValid_some (s : Session) (raw now number : String)
    (h : firstValid raw = some number) :
    processFrameResume s (some raw) now =
      (CycleOutcome.matched number,
        { showResultsView (stopScanning
            { s with scannedNumbers := s.scannedNumbers ++ [newEntry s number now] }) with
          isProcessing := false }) := by
  rw [processFrameResume_eq_scanWords, scanWords_find]
  unfold firstValid at h
  rw [Option.map_eq_some'] at h
  obtain ⟨word, hfind, hclean⟩ := h
  rw [hfind]
  simp only [addFoundNumber_eq, hclean]

theorem firstValid_isTenDigits (raw number : String) (h : firstValid raw = some number) :
    IsTenDigits number := by
  unfold firstValid at h
  rw [Option.map_eq_some'] at h
  obtain ⟨word, hfind, hclean⟩ := h
  rw [← hclean, ← isValidWord_iff]
  exact List.find?_some hfind

theorem resume_collection (s : Session) (recognized : Option String) (now : String) :
    (processFrameResume s recognized now).2.scannedNumbers = s.scannedNumbers ∨
      ∃ number, IsTenDigits number ∧
        (processFrameResume s recognized now).2.scannedNumbers =
          s.scannedNumbers ++ [newEntry s number now] := by
  cases recognized with
  | none =>
    left
    simp [processFrameResume, scheduleNext_scannedNumbers]
  | some raw =>
    cases h : firstValid raw with
    | none =>
      left
      rw [resume_of_firstValid_none s raw now h]
      simp [scheduleNext_scannedNumbers]
    | some number =>
      right
      refine ⟨number, firstValid_isTenDigits raw number h, ?_⟩
      rw [resume_of_firstValid_some s raw now number h]
      simp [showResultsView, stopScanning_scannedNumbers]

theorem processFrame_collection (s : Session) (env : FrameEnv) (recognized : Option String)
    (now : String) :
    (processFrame s env recognized now).2.scannedNumbers = s.scannedNumbers ∨
      ∃ entry, IsTenDigits entry.number ∧
        (processFrame s env recognized now).2.scannedNumbers = s.scannedNumbers ++ [entry] := by
  unfold processFrame
  split
  · left; rfl
  · have hb := processFrameBegin_scannedNumbers s env
    split
    · rename_i s1 heq
      rw [heq] at hb
      left; exact hb
    · rename_i roi s1 heq
      rw [heq] at hb
      simp only at hb
      rcases resume_collection { s1 with recognitionsInFlight := s1.recognitionsInFlight - 1 }
        recognized now with h | ⟨number, hten, h⟩
      · left; rw [h]; exact hb
      · right
        refine ⟨newEntry { s1 with recognitionsInFlight := s1.recognitionsInFlight - 1 }
          number now, hten, ?_⟩
        rw [h]
        simp only [hb]

theorem step_collection {s t : Session} (h : Step s t) :
    (∀ entry ∈ t.scannedNumbers, entry ∈ s.scannedNumbers) ∨
      ∃ entry, IsTenDigits entry.number ∧ t.scannedNumbers = s.scannedNumbers ++ [entry] := by
  cases h with
  | timer frame h =>
    left
    intro entry he
    unfold timerFires at he
    rw [processFrameBegin_scannedNumbers] at he
    exact he
  | recognition recognized now h =>
    unfold recognitionSettles
    rcases resume_collection { s with recognitionsInFlight := s.recognitionsInFlight - 1 }
      recognized now with h1 | ⟨number, hten, h1⟩
    · left
      intro entry he
      rw [h1] at he
      exact he
    · right
      exact ⟨_, hten, h1⟩
  | startButton env frame =>
    left
    intro entry he
    unfold startButtonClick at he
    split at he
    · simpa [showResultsView, stopScanning_scannedNumbers] using he
    · rw [startCamera_scannedNumbers] at he
      exact he
  | scanAgainClick env frame =>
    left
    intro entry he
    unfold scanAgain at he
    simp only at he
    rw [startCamera_scannedNumbers] at he
    simpa [showScanView, releaseStream_scannedNumbers] using he
  | delete index env frame =>
    left
    intro entry he
    unfold deleteSerialNumber at he
    simp only at he
    split at he
    · rw [startCamera_scannedNumbers] at he
      exact List.mem_of_mem_eraseIdx (by simpa [showScanView, splice1] using he)
    · exact List.mem_of_mem_eraseIdx (by simpa [showResultsView, splice1] using he)

theorem reachable_isTenDigits {s : Session} (h : Reachable s) :
    ∀ entry ∈ s.scannedNumbers, IsTenDigits entry.number := by
  induction h with
  | init => intro entry he; simp [Session.initial] at he
  | step hs hst ih =>
    rcases step_collection hst with h1 | ⟨entry, hten, h1⟩
    · intro e he
      exact ih e (h1 e he)
    · intro e he
      rw [h1, List.mem_append] at he
      rcases he with he | he
      · exact ih e he
      · rw [List.mem_singleton] at he
        rw [he]
        exact hten

theorem reachable_scanStarted : Reachable scanStarted :=
  Reachable.step Reachable.init (Step.startButton _ _ _)

theorem reachable_scanOnce : Reachable scanOnce :=
  Reachable.step reachable_scanStarted (Step.recognition _ _ _ (by decide!))

theorem reachable_scanRestarted : Reachable scanRestarted :=
  Reachable.step reachable_scanOnce (Step.scanAgainClick _ _ _)

theorem reachable_scanTwice : Reachable scanTwice :=
  Reachable.step reachable_scanRestarted (Step.recognition _ _ _ (by decide!))

end ScannerApp

/-! ## Claims on the collection store and the text layer -/

namespace ScannerApp

/-- C1 (evaluation of the code at the failing input): the session `scanTwice`,
reached from the initial state by pressing start, recognising `"2310211025"`,
pressing "Scan Another" and recognising `"2310211025"` again, holds two
entries with the same number, because `includes` compares the searched string
with entry objects and is false for every collection. -/
theorem duplicate_numbers_reachable :
    Reachable scanTwice ∧ numbersOf scanTwice = ["2310211025", "2310211025"] ∧
      ¬ (numbersOf scanTwice).Nodup :=
  ⟨reachable_scanTwice, by decide!, by decide!⟩

/-- C2 (evaluation of the code at the failing input): on a collection that already
holds `"2310211025"`, `addFoundNumber` called with `"2310211025"` returns
`true` and appends a second entry, and a second call appends a third one. -/
theorem addFoundNumber_appends_duplicate :
    (addFoundNumber holdingOne "2310211025" "2024-01-01T00:00:05.000Z").1 = true ∧
      numbersOf (addFoundNumber holdingOne "2310211025" "2024-01-01T00:00:05.000Z").2 =
        ["2310211025", "2310211025"] ∧
      numbersOf (addFoundNumber
          (addFoundNumber holdingOne "2310211025" "2024-01-01T00:00:05.000Z").2
          "2310211025" "2024-01-01T00:00:06.000Z").2 =
        ["2310211025", "2310211025", "2310211025"] := by
  decide

/-- C3: every entry that a `processFrame` cycle stores has a number of exactly ten
characters, all ASCII digits, for every recognised text (or recognition
failure), frame geometry and prior session; and in every reachable session
state every stored number has that shape. -/
theorem stored_numbers_ten_digits (s : Session) (env : FrameEnv) (recognized : Option String)
    (now : String) :
    (∀ entry ∈ (processFrame s env recognized now).2.scannedNumbers,
        entry ∈ s.scannedNumbers ∨ IsTenDigits entry.number) ∧
      (Reachable s → ∀ entry ∈ s.scannedNumbers, IsTenDigits entry.number) := by
  refine ⟨?_, reachable_isTenDigits⟩
  intro entry he
  rcases processFrame_collection s env recognized now with h | ⟨e, hten, h⟩
  · left
    rw [h] at he
    exact he
  · rw [h, List.mem_append, List.mem_singleton] at he
    rcases he with he | he
    · left; exact he
    · right; rw [he]; exact hten

/-- Witness for C3 at the reachable session `scanOnce`, which holds one entry. -/
theorem stored_numbers_ten_digits_witness :
    Reachable scanOnce ∧ scanOnce.scannedNumbers ≠ [] ∧
      ∀ entry ∈ scanOnce.scannedNumbers, IsTenDigits entry.number :=
  ⟨reachable_scanOnce, by decide!,
    (stored_numbers_ten_digits scanOnce sampleFrame (some "2310211025")
      "2024-01-01T00:00:05.000Z").2 reachable_scanOnce⟩

theorem isSerialCandidate_iff (candidate : String) :
    IsSerialCandidate candidate ↔ ∀ c ∈ candidate.data, isDigit09 c = true := by
  constructor
  · rintro ⟨token, rfl⟩ c hc
    have hc2 : c ∈ token.data.filter isDigit09 := by
      rw [← replaceNonDigits_eq_filter]
      exact hc
    exact (List.mem_filter.mp hc2).2
  · intro h
    refine ⟨candidate, ?_⟩
    have hf : candidate.data.filter isDigit09 = candidate.data :=
      List.filter_eq_self.mpr h
    unfold cleanWord
    rw [replaceNonDigits_eq_filter, hf]

/-- C4: for every serial candidate (a token after stripping its non-digit
characters, that is any string of digits), `matchesSerialNumberPattern` returns
true iff the candidate is exactly ten characters long and every character is
a digit; it is true for `"2310261085"` and false for `"123"`. -/
theorem matchesSerialNumberPattern_on_candidates (candidate : String)
    (h : IsSerialCandidate candidate) :
    (matchesSerialNumberPattern candidate = true ↔ IsTenDigits candidate) ∧
      matchesSerialNumberPattern "2310261085" = true ∧
      matchesSerialNumberPattern "123" = false := by
  refine ⟨?_, by decide, by decide⟩
  obtain ⟨token, rfl⟩ := h
  rw [matchesSerialNumberPattern_iff_cleanWord, cleanWord_cleanWord]

/-- Witness for C4: `"2310261085"` is the candidate of the token `"23-1026-1085"`,
and `"123"` is a candidate that fails the test. -/
theorem matchesSerialNumberPattern_on_candidates_witness :
    IsSerialCandidate "2310261085" ∧ IsSerialCandidate "123" ∧
      (matchesSerialNumberPattern "2310261085" = true ↔ IsTenDigits "2310261085") ∧
      (matchesSerialNumberPattern "123" = true ↔ IsTenDigits "123") :=
  ⟨⟨"23-1026-1085", by decide⟩, ⟨"123", by decide⟩,
    (matchesSerialNumberPattern_on_candidates "2310261085" ⟨"23-1026-1085", by decide⟩).1,
    (matchesSerialNumberPattern_on_candidates "123" ⟨"123", by decide⟩).1⟩

/-- C5 (counterexample): with `"2310211025"` already stored and the recognised text
`"2310211025 4350216026"`, the first token that is valid and not yet seen is
`"4350216026"`, but the cycle does not accept it: its outcome is not a match
of that number and the number is not in the collection afterwards. -/
theorem later_unseen_token_not_accepted :
    firstValidUnseen holdingOne "2310211025 4350216026" = some "4350216026" ∧
      (processFrameResume holdingOne (some "2310211025 4350216026")
        "2024-01-01T00:00:05.000Z").1 ≠ CycleOutcome.matched "4350216026" ∧
      "4350216026" ∉ numbersOf (processFrameResume holdingOne (some "2310211025 4350216026")
        "2024-01-01T00:00:05.000Z").2 := by
  decide

/-- C5 (amended): tokens are tested in recogniser order and only the first token
whose digits-only form is a valid serial is considered.  If no token is
valid the cycle accepts nothing and the collection is unchanged.  If `number`
is the first valid candidate, the cycle either accepts exactly it (one entry
for `number` appended) or rejects it as a duplicate (collection unchanged),
and it accepts it whenever `number` is not yet in the collection. -/
theorem first_valid_token_wins (s : Session) (recognized now : String) :
    (firstValid recognized = none →
        (processFrameResume s (some recognized) now).1 = CycleOutcome.noMatch ∧
        (processFrameResume s (some recognized) now).2.scannedNumbers = s.scannedNumbers) ∧
      (∀ number, firstValid recognized = some number →
        (((processFrameResume s (some recognized) now).1 = CycleOutcome.matched number ∧
            (processFrameResume s (some recognized) now).2.scannedNumbers =
              s.scannedNumbers ++ [newEntry s number now]) ∨
          ((processFrameResume s (some recognized) now).1 = CycleOutcome.duplicate number ∧
            (processFrameResume s (some recognized) now).2.scannedNumbers = s.scannedNumbers)) ∧
        (number ∉ numbersOf s →
          (processFrameResume s (some recognized) now).1 = CycleOutcome.matched number ∧
          (processFrameResume s (some recognized) now).2.scannedNumbers =
            s.scannedNumbers ++ [newEntry s number now])) := by
  constructor
  · intro h
    rw [resume_of_firstValid_none s recognized now h]
    exact ⟨rfl, scheduleNext_scannedNumbers _⟩
  · intro number h
    have key : (processFrameResume s (some recognized) now).1 = CycleOutcome.matched number ∧
        (processFrameResume s (some recognized) now).2.scannedNumbers =
          s.scannedNumbers ++ [newEntry s number now] := by
      rw [resume_of_firstValid_some s recognized now number h]
      refine ⟨rfl, ?_⟩
      simp [showResultsView, stopScanning_scannedNumbers]
    exact ⟨Or.inl key, fun _ => key⟩

/-- Witness for C5: with an empty collection and the recognised text
`"12 2310211025 4350216026"`, the first valid candidate `"2310211025"` is not
yet stored and is the one accepted. -/
theorem first_valid_token_wins_witness :
    firstValid "12 2310211025 4350216026" = some "2310211025" ∧
      "2310211025" ∉ numbersOf Session.initial ∧
      (processFrameResume Session.initial (some "12 2310211025 4350216026")
          "2024-01-01T00:00:00.000Z").1 = CycleOutcome.matched "2310211025" ∧
      (processFrameResume Session.initial (some "12 2310211025 4350216026")
          "2024-01-01T00:00:00.000Z").2.scannedNumbers =
        Session.initial.scannedNumbers ++
          [newEntry Session.initial "2310211025" "2024-01-01T00:00:00.000Z"] :=
  ⟨by decide, by decide,
    ((first_valid_token_wins Session.initial "12 2310211025 4350216026"
      "2024-01-01T00:00:00.000Z").2 "2310211025" (by decide)).2 (by decide)⟩

/-- C6: for every token, `cleanWord` (the `toCandidate` computation) returns exactly
the token's digit characters in their original order, every other character
removed; `cleanWord "23-1026-1085" = "2310261085"`. -/
theorem cleanWord_keeps_exactly_digits (token : String) :
    (cleanWord token).data = token.data.filter isDigit09 ∧
      (∀ c ∈ (cleanWord token).data, 48 ≤ c.toNat ∧ c.toNat ≤ 57) ∧
      cleanWord "23-1026-1085" = "2310261085" := by
  refine ⟨replaceNonDigits_eq_filter token.data, ?_, by decide⟩
  intro c hc
  have hc2 : c ∈ token.data.filter isDigit09 := by
    rw [← replaceNonDigits_eq_filter]
    exact hc
  exact (isDigit09_iff c).mp (List.mem_filter.mp hc2).2

/-- C7: for every recognised text, `tokenize` (trim, split on runs of white space,
drop empty pieces) returns, in order, exactly the maximal runs of
non-white-space characters of the text; no token is empty and none contains a
white-space character; `"2310261085\n\n"` yields `["2310261085"]`. -/
theorem tokenize_maximal_runs (recognized : String) :
    (tokenize recognized).map String.data = maximalNonWhiteSpaceRuns recognized.data ∧
      (∀ token ∈ tokenize recognized,
        token.length > 0 ∧ ∀ c ∈ token.data, isJSWhiteSpace c = false) ∧
      tokenize "2310261085\n\n" = ["2310261085"] := by
  refine ⟨tokenize_data recognized, ?_, by decide⟩
  intro token ht
  have hmem : token.data ∈ maximalNonWhiteSpaceRuns recognized.data := by
    rw [← tokenize_data]
    exact List.mem_map_of_mem String.data ht
  obtain ⟨hne, hfree⟩ := runs_nonempty_free recognized.data token.data hmem
  exact ⟨List.length_pos.mpr hne, hfree⟩

end ScannerApp

/-! ## Lemmas and claims on the region of interest -/

namespace ScannerApp

theorem computeROI_some_iff (region video : DOMRect) (frameWidth frameHeight : Nat) (roi : ROI) :
    computeROI region video frameWidth frameHeight = some roi ↔
      region.width ≠ 0 ∧ region.height ≠ 0 ∧
      JSNum.le (scanAxis region.left region.width video.left video.width frameWidth).2
        (JSNum.fin 0) = false ∧
      JSNum.le (scanAxis region.top region.height video.top video.height frameHeight).2
        (JSNum.fin 0) = false ∧
      roi = { x := (scanAxis region.left region.width video.left video.width frameWidth).1,
              y := (scanAxis region.top region.height video.top video.height frameHeight).1,
              width := (scanAxis region.left region.width video.left video.width frameWidth).2,
              height := (scanAxis region.top region.height video.top video.height frameHeight).2 }
      := by
  unfold computeROI
  by_cases hw : region.width = 0
  · simp [JSNum.truthy, hw]
  · by_cases hh : region.height = 0
    · simp [JSNum.truthy, hh]
    · simp only [JSNum.truthy, hw, hh, ne_eq, not_false_eq_true, decide_True, Bool.not_true,
        Bool.or_self, Bool.false_eq_true, if_false, true_and]
      cases h1 : JSNum.le (scanAxis region.left region.width video.left video.width
          frameWidth).2 (JSNum.fin 0) <;>
        cases h2 : JSNum.le (scanAxis region.top region.height video.top video.height
          frameHeight).2 (JSNum.fin 0) <;>
        simp [eq_comm]

/-- C8: on the scan region `{left:320, top:310, width:640, height:100}`, the video
display rectangle `{left:0, top:0, width:1280, height:720}` and a 1280x720
frame, both scale factors are 1, the raw region is `{320, 310, 640, 100}` and
the padded region is `{315, 305, 650, 110}`. -/
theorem computeROI_example :
    scaleFactor 1280 1280 = JSNum.fin 1 ∧ scaleFactor 720 720 = JSNum.fin 1 ∧
      exactScanStart 320 0 (JSNum.fin 1) = JSNum.fin 320 ∧
      exactScanStart 310 0 (JSNum.fin 1) = JSNum.fin 310 ∧
      exactScanExtent 640 (JSNum.fin 1) = JSNum.fin 640 ∧
      exactScanExtent 100 (JSNum.fin 1) = JSNum.fin 100 ∧
      computeROI { left := 320, top := 310, width := 640, height := 100 }
          { left := 0, top := 0, width := 1280, height := 720 } 1280 720 =
        some { x := JSNum.fin 315, y := JSNum.fin 305,
               width := JSNum.fin 650, height := JSNum.fin 110 } := by
  refine ⟨?_, ?_, ?_, ?_, ?_, ?_, ?_⟩ <;>
    norm_num [computeROI, scanAxis, scaleFactor, exactScanStart, exactScanExtent, paddedStart,
      paddedExtent, padding, JSNum.truthy, JSNum.div, JSNum.mul, JSNum.sub, JSNum.add,
      JSNum.neg, JSNum.round, JSNum.max, JSNum.min, JSNum.le, JSNum.signedInf]

/-- C9 (counterexample): with a video display rectangle of zero width whose left
edge coincides with the scan region's, the computation does not abort and
returns a region whose `x` and `width` are `NaN`, so neither `x >= 0` nor
`width > 0` holds. -/
theorem computeROI_nan_region :
    computeROI { left := 0, top := 0, width := 100, height := 50 }
        { left := 0, top := 0, width := 0, height := 720 } 1280 720 =
      some { x := JSNum.nan, y := JSNum.fin 0, width := JSNum.nan, height := JSNum.fin 60 } ∧
    JSNum.le (JSNum.fin 0) JSNum.nan = false ∧ JSNum.lt (JSNum.fin 0) JSNum.nan = false := by
  refine ⟨?_, rfl, rfl⟩
  norm_num [computeROI, scanAxis, scaleFactor, exactScanStart, exactScanExtent, paddedStart,
    paddedExtent, padding, JSNum.truthy, JSNum.div, JSNum.mul, JSNum.sub, JSNum.add,
    JSNum.neg, JSNum.round, JSNum.max, JSNum.min, JSNum.le, JSNum.signedInf]

theorem computeROI_eq_paddedRegion (region video : DOMRect) (frameWidth frameHeight : Nat) :
    computeROI region video frameWidth frameHeight =
      if region.width = 0 ∨ region.height = 0 then none
      else paddedRegion (exactScanRegion region video frameWidth frameHeight)
        frameWidth frameHeight := by
  unfold computeROI paddedRegion exactScanRegion scanAxis
  by_cases hw : region.width = 0
  · simp [JSNum.truthy, hw]
  · by_cases hh : region.height = 0
    · simp [JSNum.truthy, hh]
    · simp [JSNum.truthy, hw, hh]

theorem padded_axis_inside (exactStart exactExtent : JSNum) (frameSize : Nat)
    (hgo : JSNum.le (paddedExtent frameSize (paddedStart exactStart) exactExtent)
      (JSNum.fin 0) = false)
    (hnum : paddedExtent frameSize (paddedStart exactStart) exactExtent ≠ JSNum.nan) :
    ∃ x w : ℚ, paddedStart exactStart = JSNum.fin x ∧
      paddedExtent frameSize (paddedStart exactStart) exactExtent = JSNum.fin w ∧
      0 ≤ x ∧ 0 < w ∧ x + w ≤ frameSize := by
  cases exactStart with
  | nan => simp [paddedStart, paddedExtent, padding, JSNum.sub, JSNum.neg, JSNum.add,
      JSNum.max, JSNum.min] at hnum
  | posInf =>
    cases exactExtent <;>
      simp [paddedStart, paddedExtent, padding, JSNum.sub, JSNum.neg, JSNum.add, JSNum.mul,
        JSNum.max, JSNum.min, JSNum.le] at hgo hnum
  | negInf =>
    cases exactExtent with
    | nan => simp [paddedStart, paddedExtent, padding, JSNum.sub, JSNum.neg, JSNum.add,
        JSNum.mul, JSNum.max, JSNum.min] at hnum
    | negInf => simp [paddedStart, paddedExtent, padding, JSNum.sub, JSNum.neg, JSNum.add,
        JSNum.mul, JSNum.max, JSNum.min, JSNum.le] at hgo
    | posInf =>
      simp only [paddedStart, paddedExtent, padding, JSNum.sub, JSNum.neg, JSNum.add,
        JSNum.mul, JSNum.max, JSNum.min, JSNum.le, decide_eq_false_iff_not, not_le] at hgo ⊢
      exact ⟨_, _, rfl, rfl, le_refl _, hgo, by linarith⟩
    | fin b =>
      simp only [paddedStart, paddedExtent, padding, JSNum.sub, JSNum.neg, JSNum.add,
        JSNum.mul, JSNum.max, JSNum.min, JSNum.le, decide_eq_false_iff_not, not_le] at hgo ⊢
      refine ⟨_, _, rfl, rfl, le_refl _, hgo, ?_⟩
      split_ifs <;> linarith
  | fin a =>
    cases exactExtent with
    | nan => simp [paddedStart, paddedExtent, padding, JSNum.sub, JSNum.neg, JSNum.add,
        JSNum.mul, JSNum.max, JSNum.min] at hnum
    | negInf => simp [paddedStart, paddedExtent, padding, JSNum.sub, JSNum.neg, JSNum.add,
        JSNum.mul, JSNum.max, JSNum.min, JSNum.le] at hgo
    | posInf =>
      simp only [paddedStart, paddedExtent, padding, JSNum.sub, JSNum.neg, JSNum.add,
        JSNum.mul, JSNum.max, JSNum.min, JSNum.le, decide_eq_false_iff_not, not_le] at hgo ⊢
      refine ⟨_, _, rfl, rfl, ?_, hgo, by linarith⟩
      split_ifs <;> linarith
    | fin b =>
      simp only [paddedStart, paddedExtent, padding, JSNum.sub, JSNum.neg, JSNum.add,
        JSNum.mul, JSNum.max, JSNum.min, JSNum.le, decide_eq_false_iff_not, not_le] at hgo ⊢
      refine ⟨_, _, rfl, rfl, ?_, hgo, ?_⟩
      · split_ifs <;> linarith
      · split_ifs <;> linarith

/-- C9 (amended): for every exact scan rectangle (whatever values, finite or not,
the scaling and rounding of lines 391-398 produced from the scan region and the
video display rectangle) and every frame size on which the computation does
not abort and yields a width and a height that are numbers (not `NaN`), the
region returned has finite coordinates and lies inside the frame: `x >= 0`,
`y >= 0`, `width > 0`, `height > 0`, `x + width <= frameWidth` and
`y + height <= frameHeight`; and whenever the scan region has non-zero width and
height, `computeROI` is this padding stage applied to the exact rectangle. -/
theorem paddedRegion_inside_frame (exact : ROI) (frameWidth frameHeight : Nat) (roi : ROI)
    (h : paddedRegion exact frameWidth frameHeight = some roi)
    (hw : roi.width ≠ JSNum.nan) (hh : roi.height ≠ JSNum.nan) :
    (∃ x y width height : ℚ,
      roi = { x := JSNum.fin x, y := JSNum.fin y,
              width := JSNum.fin width, height := JSNum.fin height } ∧
      0 ≤ x ∧ 0 ≤ y ∧ 0 < width ∧ 0 < height ∧
      x + width ≤ frameWidth ∧ y + height ≤ frameHeight) ∧
    (∀ region video : DOMRect, region.width ≠ 0 → region.height ≠ 0 →
      computeROI region video frameWidth frameHeight =
        paddedRegion (exactScanRegion region video frameWidth frameHeight)
          frameWidth frameHeight) := by
  refine ⟨?_, fun region video h1 h2 => by
    rw [computeROI_eq_paddedRegion, if_neg (not_or.mpr ⟨h1, h2⟩)]⟩
  unfold paddedRegion at h
  simp only at h
  cases h1 : JSNum.le (paddedExtent frameWidth (paddedStart exact.x) exact.width) (JSNum.fin 0)
  · cases h2 : JSNum.le (paddedExtent frameHeight (paddedStart exact.y) exact.height)
        (JSNum.fin 0)
    · simp only [h1, h2, Bool.or_self, Bool.false_eq_true, if_false, Option.some.injEq] at h
      subst h
      obtain ⟨x, w, e1, e2, p1, p2, p3⟩ := padded_axis_inside _ _ frameWidth h1 hw
      obtain ⟨y, v, f1, f2, q1, q2, q3⟩ := padded_axis_inside _ _ frameHeight h2 hh
      exact ⟨x, y, w, v, by rw [e2, f2, e1, f1], p1, q1, p2, q2, p3, q3⟩
    · simp [h1, h2] at h
  · simp [h1] at h

/-- Witness for C9 on the geometry of `sampleFrame`, where `computeROI` is the
padding stage applied to the exact rectangle `{320, 310, 640, 100}` and gives
`{315, 305, 650, 110}` in a `1280 x 720` frame. -/
theorem paddedRegion_inside_frame_witness :
    paddedRegion { x := JSNum.fin 320, y := JSNum.fin 310, width := JSNum.fin 640,
                   height := JSNum.fin 100 } 1280 720 =
      some { x := JSNum.fin 315, y := JSNum.fin 305, width := JSNum.fin 650,
             height := JSNum.fin 110 } ∧
    (∃ x y width height : ℚ,
      ({ x := JSNum.fin 315, y := JSNum.fin 305, width := JSNum.fin 650,
         height := JSNum.fin 110 } : ROI) =
        { x := JSNum.fin x, y := JSNum.fin y,
          width := JSNum.fin width, height := JSNum.fin height } ∧
      0 ≤ x ∧ 0 ≤ y ∧ 0 < width ∧ 0 < height ∧
      x + width ≤ (1280 : ℕ) ∧ y + height ≤ (720 : ℕ)) ∧
    computeROI { left := 320, top := 310, width := 640, height := 100 }
        { left := 0, top := 0, width := 1280, height := 720 } 1280 720 =
      paddedRegion (exactScanRegion { left := 320, top := 310, width := 640, height := 100 }
        { left := 0, top := 0, width := 1280, height := 720 } 1280 720) 1280 720 :=
  ⟨by norm_num [paddedRegion, paddedStart, paddedExtent, padding, JSNum.mul, JSNum.sub,
      JSNum.add, JSNum.neg, JSNum.max, JSNum.min, JSNum.le],
   (paddedRegion_inside_frame
      { x := JSNum.fin 320, y := JSNum.fin 310, width := JSNum.fin 640,
        height := JSNum.fin 100 }
      1280 720
      { x := JSNum.fin 315, y := JSNum.fin 305, width := JSNum.fin 650,
        height := JSNum.fin 110 }
      (by norm_num [paddedRegion, paddedStart, paddedExtent, padding, JSNum.mul, JSNum.sub,
        JSNum.add, JSNum.neg, JSNum.max, JSNum.min, JSNum.le])
      (by simp) (by simp)).1,
   (paddedRegion_inside_frame
      { x := JSNum.fin 320, y := JSNum.fin 310, width := JSNum.fin 640,
        height := JSNum.fin 100 }
      1280 720
      { x := JSNum.fin 315, y := JSNum.fin 305, width := JSNum.fin 650,
        height := JSNum.fin 110 }
      (by norm_num [paddedRegion, paddedStart, paddedExtent, padding, JSNum.mul, JSNum.sub,
        JSNum.add, JSNum.neg, JSNum.max, JSNum.min, JSNum.le])
      (by simp) (by simp)).2 _ _ (by norm_num) (by norm_num)⟩

/-- C10 (counterexample): the video display rectangle has zero width, yet the
computation does not abort: it returns the region `{0, 0, 1280, 60}`. -/
theorem computeROI_zero_video_width :
    ({ left := 10, top := 0, width := 0, height := 720 } : DOMRect).width = 0 ∧
    computeROI { left := 0, top := 0, width := 100, height := 50 }
        { left := 10, top := 0, width := 0, height := 720 } 1280 720 =
      some { x := JSNum.fin 0, y := JSNum.fin 0,
             width := JSNum.fin 1280, height := JSNum.fin 60 } := by
  refine ⟨rfl, ?_⟩
  norm_num [computeROI, scanAxis, scaleFactor, exactScanStart, exactScanExtent, paddedStart,
    paddedExtent, padding, JSNum.truthy, JSNum.div, JSNum.mul, JSNum.sub, JSNum.add,
    JSNum.neg, JSNum.round, JSNum.max, JSNum.min, JSNum.le, JSNum.signedInf]

/-- C10 (amended): the computation returns `none` whenever the scan-region
rectangle has zero width or zero height, and whenever the resulting width or
height (the padded, capped extent of either axis) is `<= 0`. -/
theorem computeROI_none (region video : DOMRect) (frameWidth frameHeight : Nat) :
    ((region.width = 0 ∨ region.height = 0) →
        computeROI region video frameWidth frameHeight = none) ∧
      ((JSNum.le (scanAxis region.left region.width video.left video.width frameWidth).2
            (JSNum.fin 0) = true ∨
          JSNum.le (scanAxis region.top region.height video.top video.height frameHeight).2
            (JSNum.fin 0) = true) →
        computeROI region video frameWidth frameHeight = none) := by
  constructor
  · intro h
    rw [Option.eq_none_iff_forall_not_mem]
    intro roi hroi
    rw [Option.mem_def, computeROI_some_iff] at hroi
    rcases h with h | h
    · exact hroi.1 h
    · exact hroi.2.1 h
  · intro h
    rw [Option.eq_none_iff_forall_not_mem]
    intro roi hroi
    rw [Option.mem_def, computeROI_some_iff] at hroi
    rcases h with h | h
    · rw [hroi.2.2.1] at h; exact Bool.false_ne_true h
    · rw [hroi.2.2.2.1] at h; exact Bool.false_ne_true h

/-- Witness for C10: a scan region of zero width, and a scan region that starts
to the right of the frame (resulting width `-715`), both give `none`. -/
theorem computeROI_none_witness :
    computeROI { left := 320, top := 310, width := 0, height := 100 }
        { left := 0, top := 0, width := 1280, height := 720 } 1280 720 = none ∧
      computeROI { left := 2000, top := 310, width := 640, height := 100 }
        { left := 0, top := 0, width := 1280, height := 720 } 1280 720 = none :=
  ⟨(computeROI_none { left := 320, top := 310, width := 0, height := 100 }
      { left := 0, top := 0, width := 1280, height := 720 } 1280 720).1 (Or.inl rfl),
   (computeROI_none { left := 2000, top := 310, width := 640, height := 100 }
      { left := 0, top := 0, width := 1280, height := 720 } 1280 720).2
      (Or.inl (by
        norm_num [scanAxis, scaleFactor, exactScanStart, exactScanExtent, paddedStart,
          paddedExtent, padding, JSNum.div, JSNum.mul, JSNum.sub, JSNum.add, JSNum.neg,
          JSNum.round, JSNum.max, JSNum.min, JSNum.le, JSNum.signedInf]))⟩

end ScannerApp

/-! ## Lemmas on camera streams -/

namespace ScannerApp

theorem stopTracks_getElem? (streams : List MediaStream) (handle i : Nat) (m : MediaStream)
    (h : (stopTracks streams handle)[i]? = some m) :
    (handle = i ∧ ∀ t ∈ m.tracks, t.stopped = true) ∨ (handle ≠ i ∧ streams[i]? = some m) := by
  unfold stopTracks at h
  rw [List.getElem?_modify] at h
  cases hi : streams[i]? with
  | none => rw [hi] at h; simp at h
  | some a =>
    rw [hi] at h
    by_cases hh : handle = i
    · left
      refine ⟨hh, ?_⟩
      simp only [hh, if_true, Option.map_eq_map, Option.map_some', Option.some.injEq] at h
      rw [← h]
      intro t ht
      simp only [List.mem_map] at ht
      obtain ⟨_, _, rfl⟩ := ht
      rfl
    · right
      refine ⟨hh, ?_⟩
      simpa [hh] using h

theorem releaseStream_stream (s : Session) : (releaseStream s).stream = none := by
  unfold releaseStream
  split
  · rfl
  · rename_i h; exact h

theorem releaseStream_held_stopped (s : Session) (handle : Nat) (m : MediaStream)
    (hs : s.stream = some handle) (hm : (releaseStream s).streams[handle]? = some m) :
    ∀ t ∈ m.tracks, t.stopped = true := by
  unfold releaseStream at hm
  rw [hs] at hm
  simp only at hm
  rcases stopTracks_getElem? s.streams handle handle m hm with ⟨_, h1⟩ | ⟨hne, _⟩
  · exact h1
  · exact absurd rfl hne

theorem scheduleNext_streams (s : Session) :
    (scheduleNext s).streams = s.streams ∧ (scheduleNext s).stream = s.stream := by
  unfold scheduleNext
  split <;> exact ⟨rfl, rfl⟩

theorem processFrameBegin_streams (s : Session) (env : FrameEnv) :
    (processFrameBegin s env).2.streams = s.streams ∧
      (processFrameBegin s env).2.stream = s.stream := by
  unfold processFrameBegin
  split
  · exact ⟨rfl, rfl⟩
  · simp only
    split
    · split <;> exact ⟨rfl, rfl⟩
    · split <;> split <;> exact ⟨rfl, rfl⟩

end ScannerApp

/-! ## Claims on the outcome of a cycle -/

namespace ScannerApp

theorem releaseStream_eq (s : Session) :
    releaseStream s = { s with streams := (releaseStream s).streams, stream := none } := by
  unfold releaseStream
  split
  · rfl
  · rename_i h
    cases s
    simp_all

theorem stopScanning_eq (s : Session) :
    stopScanning s =
      { s with streams := (stopScanning s).streams, stream := none, isScanning := false,
               isProcessing := false, scanInterval := none, srcObject := none,
               startButtonText := "Start Scanner" } := by
  unfold stopScanning
  simp only
  rw [releaseStream_eq]

theorem firstValid_eq_none_of_no_valid (recognized : String)
    (h : (trim recognized).length = 0 ∨
      ∀ token ∈ tokenize recognized, ¬ IsTenDigits (cleanWord token)) :
    firstValid recognized = none := by
  unfold firstValid
  rw [Option.map_eq_none', List.find?_eq_none]
  rcases h with h | h
  · intro token ht
    simp [tokenize, h] at ht
  · intro token ht
    rw [isValidWord_iff]
    exact h token ht

/-- C11: for every cycle in which a token validates and is not yet in the
collection, in whatever session state the recognition call resolves, the
outcome is a match: one entry for that serial is appended (the size grows by
exactly one) and the controller is stopped: `isScanning` and `isProcessing`
are false, the stream handle and `video.srcObject` are cleared, the results
view is shown and every track of the stream that the controller held is
stopped (the stream objects are those left by `stopScanning`'s release block). -/
theorem matched_cycle_stops (s : Session) (recognized now number : String)
    (hv : firstValid recognized = some number) (hu : number ∉ numbersOf s) :
    (processFrameResume s (some recognized) now).1 = CycleOutcome.matched number ∧
      (processFrameResume s (some recognized) now).2.scannedNumbers =
        s.scannedNumbers ++ [newEntry s number now] ∧
      (processFrameResume s (some recognized) now).2.scannedNumbers.length =
        s.scannedNumbers.length + 1 ∧
      (processFrameResume s (some recognized) now).2.isScanning = false ∧
      (processFrameResume s (some recognized) now).2.isProcessing = false ∧
      (processFrameResume s (some recognized) now).2.stream = none ∧
      (processFrameResume s (some recognized) now).2.srcObject = none ∧
      (processFrameResume s (some recognized) now).2.view = View.results ∧
      (∀ handle m, s.stream = some handle →
        (processFrameResume s (some recognized) now).2.streams[handle]? = some m →
        ∀ t ∈ m.tracks, t.stopped = true) ∧
      (processFrameResume s (some recognized) now).2.streams = (releaseStream s).streams := by
  have _ := hu
  rw [resume_of_firstValid_some s recognized now number hv]
  refine ⟨rfl, ?_, ?_, ?_, ?_, ?_, ?_, ?_, ?_, ?_⟩
  · simp [showResultsView, stopScanning_scannedNumbers]
  · simp [showResultsView, stopScanning_scannedNumbers]
  · rw [stopScanning_eq]; rfl
  · rfl
  · rw [stopScanning_eq]; rfl
  · rw [stopScanning_eq]; rfl
  · rfl
  · intro handle m hs hm
    exact releaseStream_held_stopped
      { s with scannedNumbers := s.scannedNumbers ++ [newEntry s number now],
               isScanning := false, isProcessing := false, scanInterval := none }
      handle m hs hm
  · simp only [showResultsView, stopScanning, releaseStream]
    cases s.stream <;> rfl

/-- Witness for C11: the first recognition ever returns `"2310211025"`; the
collection goes from empty to one entry, the scanner is stopped and the one
camera track is stopped. -/
theorem matched_cycle_stops_witness :
    firstValid "2310211025" = some "2310211025" ∧ numbersOf scanStarted = [] ∧
      (processFrameResume scanStarted (some "2310211025") "2024-01-01T00:00:00.000Z").1 =
        CycleOutcome.matched "2310211025" ∧
      (processFrameResume scanStarted (some "2310211025")
        "2024-01-01T00:00:00.000Z").2.scannedNumbers.length = 1 ∧
      (processFrameResume scanStarted (some "2310211025")
        "2024-01-01T00:00:00.000Z").2.isScanning = false ∧
      (processFrameResume scanStarted (some "2310211025")
        "2024-01-01T00:00:00.000Z").2.streams = [{ tracks := [{ stopped := true }] }] := by
  have h := matched_cycle_stops scanStarted "2310211025" "2024-01-01T00:00:00.000Z"
    "2310211025" (by decide) (by decide!)
  refine ⟨by decide, by decide!, h.1, ?_, h.2.2.2.1, ?_⟩
  · rw [h.2.2.1]
    decide!
  · rw [h.2.2.2.2.2.2.2.2.2]
    decide!

/-- C12 (evaluation of the code at the failing input): in the reachable session
`scanRestarted`, which is scanning and already holds `"2310211025"`, a cycle
that recognises `"2310211025"` again is not rejected: its outcome is a match,
a second entry is stored, the scanner is stopped (flag cleared, stream handle
cleared, tracks stopped) and no next cycle is scheduled. -/
theorem duplicate_cycle_matches :
    Reachable scanRestarted ∧ numbersOf scanRestarted = ["2310211025"] ∧
      scanRestarted.isScanning = true ∧
      (processFrameResume scanRestarted (some "2310211025") "2024-01-01T00:00:05.000Z").1 =
        CycleOutcome.matched "2310211025" ∧
      numbersOf (processFrameResume scanRestarted (some "2310211025")
        "2024-01-01T00:00:05.000Z").2 = ["2310211025", "2310211025"] ∧
      (processFrameResume scanRestarted (some "2310211025")
        "2024-01-01T00:00:05.000Z").2.isScanning = false ∧
      (processFrameResume scanRestarted (some "2310211025")
        "2024-01-01T00:00:05.000Z").2.stream = none ∧
      (processFrameResume scanRestarted (some "2310211025")
        "2024-01-01T00:00:05.000Z").2.pendingTimers = 0 :=
  ⟨reachable_scanRestarted, by decide!, by decide!, by decide!, by decide!, by decide!,
    by decide!, by decide!⟩

/-- C13: for every recognised text that is empty after trimming, or in which no
token normalises to a valid serial, a cycle of a scanning session ends with no
match: the session afterwards is the session before with `isProcessing` false
and exactly one more armed timer, so the collection is unchanged and
`isScanning` is still true; `"ABC1234567DEF"` is such a text, its digits-only
form `"1234567"` having seven digits. -/
theorem no_valid_token_no_match (s : Session) (recognized now : String)
    (hscan : s.isScanning = true)
    (hno : (trim recognized).length = 0 ∨
      ∀ token ∈ tokenize recognized, ¬ IsTenDigits (cleanWord token)) :
    processFrameResume s (some recognized) now =
        (CycleOutcome.noMatch,
          { s with isProcessing := false, pendingTimers := s.pendingTimers + 1 }) ∧
      (processFrameResume s (some recognized) now).2.scannedNumbers = s.scannedNumbers ∧
      (processFrameResume s (some recognized) now).2.isProcessing = false ∧
      (processFrameResume s (some recognized) now).2.isScanning = true ∧
      (processFrameResume s (some recognized) now).2.pendingTimers = s.pendingTimers + 1 ∧
      tokenize "ABC1234567DEF" = ["ABC1234567DEF"] ∧
      cleanWord "ABC1234567DEF" = "1234567" := by
  have h : processFrameResume s (some recognized) now =
      (CycleOutcome.noMatch,
        { s with isProcessing := false, pendingTimers := s.pendingTimers + 1 }) := by
    rw [resume_of_firstValid_none s recognized now (firstValid_eq_none_of_no_valid _ hno)]
    simp [scheduleNext, hscan]
  rw [h]
  exact ⟨rfl, rfl, rfl, hscan, rfl, by decide, by decide⟩

/-- Witness for C13: the text `"ABC1234567DEF"` and the empty text in the scanning
session `scanStarted`. -/
theorem no_valid_token_no_match_witness :
    (processFrameResume scanStarted (some "ABC1234567DEF") "2024-01-01T00:00:00.000Z").1 =
        CycleOutcome.noMatch ∧
      (processFrameResume scanStarted (some "") "2024-01-01T00:00:00.000Z").1 =
        CycleOutcome.noMatch ∧
      (processFrameResume scanStarted (some "ABC1234567DEF")
        "2024-01-01T00:00:00.000Z").2.pendingTimers = scanStarted.pendingTimers + 1 :=
  ⟨congrArg Prod.fst (no_valid_token_no_match scanStarted "ABC1234567DEF"
      "2024-01-01T00:00:00.000Z" (by decide!) (Or.inr (by decide))).1,
   congrArg Prod.fst (no_valid_token_no_match scanStarted ""
      "2024-01-01T00:00:00.000Z" (by decide!) (Or.inl (by decide))).1,
   (no_valid_token_no_match scanStarted "ABC1234567DEF"
      "2024-01-01T00:00:00.000Z" (by decide!) (Or.inr (by decide))).2.2.2.2.1⟩

/-- C14 (evaluation of the code at the failing input): after a cycle that returns
from the region-of-interest checks (scan region of zero size, scan region
missing, or resulting width `<= 0`) the session is still scanning but
`isProcessing` is still true, no timer is armed and no recognition call is
pending; every later `processFrame` call is refused by the busy guard. -/
theorem aborted_cycle_stays_busy :
    (scanStalled.isScanning = true ∧ scanStalled.isProcessing = true ∧
        scanStalled.pendingTimers = 0 ∧ scanStalled.recognitionsInFlight = 0) ∧
      (scanStalledNoRegion.isScanning = true ∧ scanStalledNoRegion.isProcessing = true ∧
        scanStalledNoRegion.pendingTimers = 0 ∧
        scanStalledNoRegion.recognitionsInFlight = 0) ∧
      (scanStalledOutside.isScanning = true ∧ scanStalledOutside.isProcessing = true ∧
        scanStalledOutside.pendingTimers = 0 ∧
        scanStalledOutside.recognitionsInFlight = 0) ∧
      (∀ frame recognized now,
        processFrame scanStalled frame recognized now = (CycleOutcome.refused, scanStalled)) := by
  refine ⟨by decide!, by decide!, by decide!, ?_⟩
  intro frame recognized now
  have h : scanStalled.isProcessing = true := by decide!
  simp [processFrame, h]

end ScannerApp

/-! ## Claims on the busy flag, stopping and restarting -/

namespace ScannerApp

theorem processFrameBegin_frame (s : Session) (env : FrameEnv) :
    (processFrameBegin s env).2.view = s.view ∧
      (processFrameBegin s env).2.isScanning = s.isScanning ∧
      (processFrameBegin s env).2.srcObject = s.srcObject ∧
      (processFrameBegin s env).2.pendingTimers = s.pendingTimers := by
  unfold processFrameBegin
  split
  · exact ⟨rfl, rfl, rfl, rfl⟩
  · simp only
    split
    · split <;> exact ⟨rfl, rfl, rfl, rfl⟩
    · split <;> split <;> exact ⟨rfl, rfl, rfl, rfl⟩

theorem startCameraAcquire_view (s : Session) (env : CameraEnv) :
    (startCameraAcquire s env).2.view = s.view := by
  unfold startCameraAcquire
  simp only
  rw [releaseStream_eq]
  split
  · rfl
  · split
    · rfl
    · split <;> rfl

theorem startCamera_view (s : Session) (env : CameraEnv) (frame : FrameEnv) :
    (startCamera s env frame).view = s.view := by
  unfold startCamera
  have h := startCameraAcquire_view s env
  split
  · rename_i s1 heq
    rw [heq] at h
    rw [(processFrameBegin_frame s1 frame).1]
    exact h
  · rename_i s1 heq
    rw [heq] at h
    exact h

theorem startCameraAcquire_success (s : Session) (env : CameraEnv)
    (hregion : env.scanRegionPresent = true)
    (hcam : env.rearCamera.isSome = true ∨ env.anyCamera.isSome = true)
    (hplay : env.playSucceeds = true) :
    (startCameraAcquire s env).1 = true ∧ (startCameraAcquire s env).2.isScanning = true ∧
      (startCameraAcquire s env).2.stream.isSome = true := by
  unfold startCameraAcquire
  simp only [hregion, hplay, Bool.not_true, Bool.false_eq_true, if_false]
  cases hr : env.rearCamera with
  | some m => exact ⟨rfl, rfl, rfl⟩
  | none =>
    cases ha : env.anyCamera with
    | some m => exact ⟨rfl, rfl, rfl⟩
    | none => simp [hr, ha] at hcam

theorem startCamera_success (s : Session) (env : CameraEnv) (frame : FrameEnv)
    (hregion : env.scanRegionPresent = true)
    (hcam : env.rearCamera.isSome = true ∨ env.anyCamera.isSome = true)
    (hplay : env.playSucceeds = true) :
    (startCamera s env frame).isScanning = true ∧
      (startCamera s env frame).stream.isSome = true := by
  obtain ⟨h1, h2, h3⟩ := startCameraAcquire_success s env hregion hcam hplay
  unfold startCamera
  split
  · rename_i s1 heq
    rw [heq] at h2 h3
    rw [(processFrameBegin_frame s1 frame).2.1, (processFrameBegin_streams s1 frame).2]
    exact ⟨h2, h3⟩
  · rename_i s1 heq
    rw [heq] at h1
    simp at h1


theorem reachable_scanStopped : Reachable scanStopped :=
  Reachable.step reachable_scanStarted (Step.startButton _ _ _)

theorem reachable_scanResumedEarly : Reachable scanResumedEarly :=
  Reachable.step reachable_scanStopped (Step.scanAgainClick _ _ _)

theorem reachable_scanIdleWithPending : Reachable scanIdleWithPending :=
  Reachable.step reachable_scanResumedEarly (Step.recognition _ _ _ (by decide!))

theorem reachable_scanStoppedInScanView : Reachable scanStoppedInScanView :=
  Reachable.step reachable_scanStopped (Step.scanAgainClick _ _ _)

theorem processFrameBegin_of_busy (s : Session) (env : FrameEnv) (h : s.isProcessing = true) :
    processFrameBegin s env = (none, s) := by
  simp [processFrameBegin, h]

theorem processFrameBegin_of_some (s : Session) (env : FrameEnv) (roi : ROI)
    (h : (processFrameBegin s env).1 = some roi) :
    s.isProcessing = false ∧ (processFrameBegin s env).2.isProcessing = true ∧
      (processFrameBegin s env).2.recognitionsInFlight = s.recognitionsInFlight + 1 := by
  unfold processFrameBegin at h ⊢
  by_cases hg : (s.srcObject.isNone || !s.isScanning || s.isProcessing) = true
  · rw [if_pos hg] at h
    simp at h
  · rw [if_neg hg] at h
    rw [if_neg hg]
    have hp : s.isProcessing = false := by
      cases hq : s.isProcessing
      · rfl
      · simp [hq] at hg
    cases hreg : env.scanRegionRect with
    | none => simp [hreg] at h
    | some region =>
      cases hroi : computeROI region env.videoRect env.videoWidth env.videoHeight with
      | none => simp [hreg, hroi] at h
      | some roi2 =>
        simp only [hroi]
        refine ⟨hp, ?_, ?_⟩
        · split <;> rfl
        · split <;> rfl

/-- C15 (counterexample): the session `scanIdleWithPending` is reachable (start,
stop while the first recognition is pending, "Scan Another", second recognition
returns an empty text) and has one recognition call pending; the `processFrame`
call made by its armed timer is not discarded: it issues a recognition call
and two calls are then pending.  Already `scanResumedEarly` has two. -/
theorem second_recognition_started :
    Reachable scanIdleWithPending ∧ scanIdleWithPending.recognitionsInFlight = 1 ∧
      0 < scanIdleWithPending.pendingTimers ∧
      (processFrameBegin scanIdleWithPending sampleFrame).1.isSome = true ∧
      (timerFires scanIdleWithPending sampleFrame).recognitionsInFlight = 2 ∧
      Reachable scanResumedEarly ∧ scanResumedEarly.recognitionsInFlight = 2 :=
  ⟨reachable_scanIdleWithPending, by decide!, by decide!, by decide!, by decide!,
    reachable_scanResumedEarly, by decide!⟩

/-- C15 (amended): a `processFrame` call issued while the busy flag `isProcessing`
is set is discarded: it changes no session state and starts no recognition
call; and a call that does start a recognition call found the flag clear and
sets it. -/
theorem busy_cycle_refused (s : Session) (env : FrameEnv) (recognized : Option String)
    (now : String) :
    (s.isProcessing = true →
        processFrameBegin s env = (none, s) ∧
        processFrame s env recognized now = (CycleOutcome.refused, s)) ∧
      (∀ roi, (processFrameBegin s env).1 = some roi →
        s.isProcessing = false ∧ (processFrameBegin s env).2.isProcessing = true ∧
        (processFrameBegin s env).2.recognitionsInFlight = s.recognitionsInFlight + 1) := by
  refine ⟨?_, processFrameBegin_of_some s env⟩
  intro h
  refine ⟨processFrameBegin_of_busy s env h, ?_⟩
  simp [processFrame, h]

/-- Witness for C15: in `scanStarted` the first cycle is in flight and the flag is
set; a further `processFrame` call leaves the session as it is. -/
theorem busy_cycle_refused_witness :
    scanStarted.isProcessing = true ∧
      processFrameBegin scanStarted sampleFrame = (none, scanStarted) ∧
      processFrame scanStarted sampleFrame (some "2310211025") "2024-01-01T00:00:00.000Z" =
        (CycleOutcome.refused, scanStarted) :=
  ⟨by decide!,
    (busy_cycle_refused scanStarted sampleFrame (some "2310211025")
      "2024-01-01T00:00:00.000Z").1 (by decide!)⟩

/-- C16 (counterexample): the sessions `scanStopped` and `scanStoppedInScanView`
are reachable with `isScanning` false and a recognition call pending; when
that call resolves with `"2310211025"` the result is not discarded: an entry is
stored, and from the scan view the results view is shown. -/
theorem late_result_is_stored :
    Reachable scanStopped ∧ scanStopped.isScanning = false ∧
      0 < scanStopped.recognitionsInFlight ∧ numbersOf scanStopped = [] ∧
      numbersOf (recognitionSettles scanStopped (some "2310211025")
        "2024-01-01T00:00:09.000Z") = ["2310211025"] ∧
      Reachable scanStoppedInScanView ∧ scanStoppedInScanView.isScanning = false ∧
      0 < scanStoppedInScanView.recognitionsInFlight ∧
      scanStoppedInScanView.view = View.scan ∧
      (recognitionSettles scanStoppedInScanView (some "2310211025")
        "2024-01-01T00:00:09.000Z").view = View.results :=
  ⟨reachable_scanStopped, by decide!, by decide!, by decide!, by decide!,
    reachable_scanStoppedInScanView, by decide!, by decide!, by decide!, by decide!⟩

/-- C16 (amended): if `isScanning` is false when a recognition call resolves, a
result without valid serial (empty text, or no valid token) changes nothing
but the busy flag: the collection, `isScanning`, the view and the timers are
as before and `isProcessing` is false; a result with a valid serial is acted
on as in any other cycle: the serial is stored and the results view shown. -/
theorem late_result_without_serial (s : Session) (recognized now : String)
    (hstopped : s.isScanning = false) :
    (firstValid recognized = none →
        processFrameResume s (some recognized) now =
          (CycleOutcome.noMatch, { s with isProcessing := false })) ∧
      (∀ number, firstValid recognized = some number →
        (processFrameResume s (some recognized) now).2.scannedNumbers =
          s.scannedNumbers ++ [newEntry s number now] ∧
        (processFrameResume s (some recognized) now).2.view = View.results) := by
  constructor
  · intro h
    rw [resume_of_firstValid_none s recognized now h]
    simp [scheduleNext, hstopped]
  · intro number h
    rw [resume_of_firstValid_some s recognized now number h]
    refine ⟨?_, rfl⟩
    simp [showResultsView, stopScanning_scannedNumbers]

/-- Witness for C16: in `scanStopped` a late empty result only clears the flag. -/
theorem late_result_without_serial_witness :
    scanStopped.isScanning = false ∧ firstValid "" = none ∧
      processFrameResume scanStopped (some "") "2024-01-01T00:00:09.000Z" =
        (CycleOutcome.noMatch, { scanStopped with isProcessing := false }) :=
  ⟨by decide!, by decide,
    (late_result_without_serial scanStopped "" "2024-01-01T00:00:09.000Z" (by decide!)).1
      (by decide)⟩

/-- C17 (counterexample): after "Scan Another" was pressed in `scanOnce`, the
collection still holds the serial scanned before. -/
theorem scanAgain_keeps_serial :
    numbersOf scanOnce = ["2310211025"] ∧
      numbersOf (scanAgain scanOnce sampleCamera sampleFrame) = ["2310211025"] ∧
      (scanAgain scanOnce sampleCamera sampleFrame).scannedNumbers ≠ [] :=
  ⟨by decide!, by decide!, by decide!⟩

/-- C17 (amended): for every session state, device and frame geometry, "Scan
Another" leaves the collection exactly as it was and shows the scan view. -/
theorem scanAgain_keeps_collection (s : Session) (env : CameraEnv) (frame : FrameEnv) :
    (scanAgain s env frame).scannedNumbers = s.scannedNumbers ∧
      (scanAgain s env frame).view = View.scan := by
  unfold scanAgain
  simp only
  rw [startCamera_scannedNumbers, startCamera_view]
  exact ⟨by simp [showScanView, releaseStream_scannedNumbers], rfl⟩

end ScannerApp

/-! ## Claims on deletion, geolocation and asset slots -/

namespace ScannerApp

/-- C18: for every collection and every index below its length,
`deleteSerialNumber` removes exactly the entry at that index: the entries
before it keep their place, the entries after it move down by one, the length
decreases by one.  If the collection becomes empty the scan view is shown and
the camera is restarted through `startCamera` (so that, when the device grants
the camera, the session is scanning with a stream); otherwise the results view
is shown and nothing else changes. -/
theorem deleteSerialNumber_removes (s : Session) (index : Nat) (env : CameraEnv)
    (frame : FrameEnv) (h : index < s.scannedNumbers.length) :
    (deleteSerialNumber s index env frame).scannedNumbers =
        s.scannedNumbers.take index ++ s.scannedNumbers.drop (index + 1) ∧
      (deleteSerialNumber s index env frame).scannedNumbers.length + 1 =
        s.scannedNumbers.length ∧
      (∀ j, j < index →
        (deleteSerialNumber s index env frame).scannedNumbers[j]? = s.scannedNumbers[j]?) ∧
      (∀ j, index ≤ j →
        (deleteSerialNumber s index env frame).scannedNumbers[j]? = s.scannedNumbers[j + 1]?) ∧
      ((deleteSerialNumber s index env frame).scannedNumbers = [] →
        (deleteSerialNumber s index env frame).view = View.scan ∧
        deleteSerialNumber s index env frame =
          startCamera (showScanView { s with scannedNumbers := [] }) env frame ∧
        (env.scanRegionPresent = true →
          (env.rearCamera.isSome = true ∨ env.anyCamera.isSome = true) →
          env.playSucceeds = true →
          (deleteSerialNumber s index env frame).isScanning = true ∧
          (deleteSerialNumber s index env frame).stream.isSome = true)) ∧
      ((deleteSerialNumber s index env frame).scannedNumbers ≠ [] →
        deleteSerialNumber s index env frame =
          { s with scannedNumbers := s.scannedNumbers.eraseIdx index,
                   view := View.results }) := by
  have hcoll : (deleteSerialNumber s index env frame).scannedNumbers =
      s.scannedNumbers.eraseIdx index := by
    unfold deleteSerialNumber
    simp only
    split
    · rw [startCamera_scannedNumbers]; rfl
    · rfl
  refine ⟨?_, ?_, ?_, ?_, ?_, ?_⟩
  · rw [hcoll, List.eraseIdx_eq_take_drop_succ]
  · rw [hcoll, List.length_eraseIdx_of_lt h]
    omega
  · intro j hj
    rw [hcoll, List.getElem?_eraseIdx_of_lt _ _ _ hj]
  · intro j hj
    rw [hcoll, List.getElem?_eraseIdx_of_ge _ _ _ hj]
  · intro hempty
    rw [hcoll] at hempty
    have hdel : deleteSerialNumber s index env frame =
        startCamera (showScanView { s with scannedNumbers := [] }) env frame := by
      unfold deleteSerialNumber
      simp only [splice1, hempty, List.length_nil, if_true]
    refine ⟨?_, hdel, ?_⟩
    · rw [hdel, startCamera_view]; rfl
    · intro h1 h2 h3
      rw [hdel]
      exact startCamera_success _ env frame h1 h2 h3
  · intro hne
    rw [hcoll] at hne
    unfold deleteSerialNumber
    simp only [splice1]
    rw [if_neg (by
      intro hc
      exact hne (List.length_eq_zero.mp hc))]
    rfl

/-- Witness for C18: deleting the only entry of `scanOnce` empties the collection
and returns to the scan view; deleting the first of the two entries of
`scanTwice` keeps the second and stays in the results view. -/
theorem deleteSerialNumber_removes_witness :
    (deleteSerialNumber scanOnce 0 sampleCamera sampleFrame).scannedNumbers.length + 1 =
        scanOnce.scannedNumbers.length ∧
      (deleteSerialNumber scanTwice 0 sampleCamera sampleFrame).scannedNumbers =
        scanTwice.scannedNumbers.take 0 ++ scanTwice.scannedNumbers.drop (0 + 1) ∧
      (deleteSerialNumber scanOnce 0 sampleCamera sampleFrame).view = View.scan ∧
      (deleteSerialNumber scanTwice 0 sampleCamera sampleFrame).view = View.results :=
  ⟨(deleteSerialNumber_removes scanOnce 0 sampleCamera sampleFrame (by decide!)).2.1,
   (deleteSerialNumber_removes scanTwice 0 sampleCamera sampleFrame (by decide!)).1,
   by decide!, by decide!⟩

theorem processFrameResume_position (s : Session) (recognized : Option String) (now : String) :
    (processFrameResume s recognized now).2.currentPosition = s.currentPosition ∧
      (processFrameResume s recognized now).2.locationLookups = s.locationLookups := by
  have hsched : ∀ t : Session, (scheduleNext t).currentPosition = t.currentPosition ∧
      (scheduleNext t).locationLookups = t.locationLookups := by
    intro t
    unfold scheduleNext
    split <;> exact ⟨rfl, rfl⟩
  cases recognized with
  | none =>
    simp only [processFrameResume]
    exact hsched _
  | some raw =>
    cases hv : firstValid raw with
    | none =>
      rw [resume_of_firstValid_none s raw now hv]
      exact hsched _
    | some number =>
      rw [resume_of_firstValid_some s raw now number hv, stopScanning_eq]
      exact ⟨rfl, rfl⟩

/-- C19 (counterexample): one press of the start button on a device without
position fix already makes two lookups (one in `startCamera`, one in the first
cycle); and a position cached as non-null in `scanStartedWithFix` is replaced
by `null` when the scanner is restarted on a device whose lookup fails. -/
theorem location_looked_up_again :
    Reachable scanStarted ∧ scanStarted.locationLookups = 2 ∧
      scanStartedWithFix.currentPosition = some { lat := 45, lng := -75, accuracy := 10 } ∧
      scanRestartedWithoutFix.currentPosition = none ∧
      scanRestartedWithoutFix.locationLookups = 3 :=
  ⟨reachable_scanStarted, by decide!, by decide!, by decide!, by decide!⟩

/-- C19 (amended): every `startCamera` call makes one lookup and replaces the
cached position by its result, whatever was cached; a `processFrame` call
makes at most one lookup, and none when a position is cached, which it then
leaves in place; the part of a cycle after recognition makes no lookup and
leaves the cached position in place. -/
theorem location_lookup_policy (s : Session) (camera : CameraEnv) (frame : FrameEnv)
    (recognized : Option String) (now : String) :
    ((startCameraAcquire s camera).2.locationLookups = s.locationLookups + 1 ∧
        (startCameraAcquire s camera).2.currentPosition = camera.location) ∧
      (processFrameBegin s frame).2.locationLookups ≤ s.locationLookups + 1 ∧
      (s.currentPosition ≠ none →
        (processFrameBegin s frame).2.locationLookups = s.locationLookups ∧
        (processFrameBegin s frame).2.currentPosition = s.currentPosition) ∧
      ((processFrameResume s recognized now).2.locationLookups = s.locationLookups ∧
        (processFrameResume s recognized now).2.currentPosition = s.currentPosition) := by
  refine ⟨?_, ?_, ?_, ?_⟩
  · unfold startCameraAcquire
    simp only
    rw [releaseStream_eq]
    split
    · exact ⟨rfl, rfl⟩
    · split
      · exact ⟨rfl, rfl⟩
      · split <;> exact ⟨rfl, rfl⟩
  · unfold processFrameBegin
    split
    · exact Nat.le_succ _
    · simp only
      split
      · split
        · exact Nat.le_refl _
        · exact Nat.le_succ _
      · split <;> split <;> first | exact Nat.le_refl _ | exact Nat.le_succ _
  · intro hpos
    have hsome : s.currentPosition.isNone = false := by
      cases hp : s.currentPosition with
      | none => exact absurd hp hpos
      | some p => rfl
    unfold processFrameBegin
    split
    · exact ⟨rfl, rfl⟩
    · simp only [hsome, Bool.false_eq_true, if_false]
      split
      · exact ⟨rfl, rfl⟩
      · split <;> exact ⟨rfl, rfl⟩
  · exact ⟨(processFrameResume_position s recognized now).2,
      (processFrameResume_position s recognized now).1⟩

/-- Witness for C19: in `scanStartedWithFix` a position is cached; a further
`processFrame` call makes no lookup and keeps it. -/
theorem location_lookup_policy_witness :
    scanStartedWithFix.currentPosition ≠ none ∧
      (processFrameBegin scanStartedWithFix sampleFrame).2.locationLookups =
        scanStartedWithFix.locationLookups ∧
      (processFrameBegin scanStartedWithFix sampleFrame).2.currentPosition =
        scanStartedWithFix.currentPosition :=
  ⟨by decide!,
    (location_lookup_policy scanStartedWithFix sampleCamera sampleFrame none
      "2024-01-01T00:00:00.000Z").2.2.1 (by decide!)⟩

theorem serialsOrEmpty_length_pos (d : DealScanner) (index : Nat) :
    0 < (d.serialsOrEmpty index).length ↔
      ∃ serials, d.scannedSerials.get index = some serials ∧ serials ≠ [] := by
  unfold DealScanner.serialsOrEmpty
  cases h : d.scannedSerials.get index with
  | none => simp
  | some serials => simp [List.length_pos]

/-- C20: for every list of asset slots and every serial table,
`isAllSerialsFilled()` is true iff every slot index below the number of
slots has an associated, non-empty list of serials; for a deal with two slots
it is false when only the first has a serial (also when the second has an
empty list) and true once both have one. -/
theorem isAllSerialsFilled_iff (d : DealScanner) :
    (d.isAllSerialsFilled = true ↔
        ∀ index, index < d.assets.length →
          ∃ serials, d.scannedSerials.get index = some serials ∧ serials ≠ []) ∧
      (twoSlotDeal [(0, ["2310211025"])]).isAllSerialsFilled = false ∧
      (twoSlotDeal [(0, ["2310211025"]), (1, [])]).isAllSerialsFilled = false ∧
      (twoSlotDeal [(0, ["2310211025"]), (1, ["4350216026"])]).isAllSerialsFilled = true := by
  refine ⟨?_, by decide, by decide, by decide⟩
  unfold DealScanner.isAllSerialsFilled
  rw [List.all_eq_true]
  constructor
  · intro h index hlt
    have := h index (List.mem_range.mpr hlt)
    rw [decide_eq_true_eq] at this
    exact (serialsOrEmpty_length_pos d index).mp this
  · intro h index hmem
    rw [decide_eq_true_eq]
    exact (serialsOrEmpty_length_pos d index).mpr (h index (List.mem_range.mp hmem))

end ScannerApp

/-! ## Claims on assignment and submission -/

namespace ScannerApp

theorem get_cons (k : Nat) (v : List String) (rest : SerialTable) (j : Nat) :
    SerialTable.get ((k, v) :: rest) j = if k = j then some v else SerialTable.get rest j := by
  unfold SerialTable.get
  by_cases h : k = j <;> simp [List.find?_cons, h]

theorem get_map_replace (table : SerialTable) (index j : Nat) (serials : List String) :
    SerialTable.get
        (table.map (fun entry => if entry.1 == index then (index, serials) else entry)) j =
      if j = index then (if (table.get index).isSome then some serials else none)
      else table.get j := by
  induction table with
  | nil => simp [SerialTable.get]
  | cons entry rest ih =>
    obtain ⟨k, v⟩ := entry
    by_cases he : k = index
    · have hmap : List.map (fun entry : Nat × List String =>
            if entry.1 == index then (index, serials) else entry) ((k, v) :: rest) =
          (index, serials) :: List.map (fun entry : Nat × List String =>
            if entry.1 == index then (index, serials) else entry) rest := by
        simp [he]
      rw [hmap, get_cons, get_cons, get_cons, ih]
      by_cases hj : j = index
      · simp [hj, he]
      · have hne : ¬ index = j := fun h => hj h.symm
        have hk : ¬ k = j := fun h => hj (h.symm.trans he)
        simp [hj, hne, hk]
    · have hmap : List.map (fun entry : Nat × List String =>
            if entry.1 == index then (index, serials) else entry) ((k, v) :: rest) =
          (k, v) :: List.map (fun entry : Nat × List String =>
            if entry.1 == index then (index, serials) else entry) rest := by
        simp [he]
      rw [hmap, get_cons, get_cons, get_cons, ih]
      by_cases hj : j = index
      · have hk : ¬ k = j := fun h => he (h.trans hj)
        simp [hj, he]
      · simp [hj, he]

theorem get_set_same (table : SerialTable) (index : Nat) (serials : List String) :
    (table.set index serials).get index = some serials := by
  unfold SerialTable.set
  split
  · rename_i h
    rw [get_map_replace]
    simp [h]
  · rename_i h
    have hnone : table.get index = none := by
      cases hg : table.get index with
      | none => rfl
      | some v => simp [hg] at h
    unfold SerialTable.get at hnone ⊢
    rw [Option.map_eq_none'] at hnone
    rw [List.find?_append, hnone]
    simp

theorem get_set_other (table : SerialTable) (index j : Nat) (serials : List String)
    (hj : j ≠ index) : (table.set index serials).get j = table.get j := by
  unfold SerialTable.set
  split
  · rw [get_map_replace]
    simp [hj]
  · unfold SerialTable.get
    rw [List.find?_append]
    have hne : ¬ index = j := fun h => hj h.symm
    cases hf : List.find? (fun entry => entry.1 == j) table with
    | some e => simp
    | none => simp [List.find?_cons, hne]

theorem pushSerial_get_same (d : DealScanner) (serialNumber : String) :
    (d.pushSerial serialNumber).scannedSerials.get d.currentAssetIndex =
      some (d.serialsOrEmpty d.currentAssetIndex ++ [serialNumber]) := by
  unfold DealScanner.pushSerial DealScanner.serialsOrEmpty
  simp only
  rw [get_set_same]
  cases hg : d.scannedSerials.get d.currentAssetIndex with
  | none => simp [get_set_same]
  | some v => simp [hg]

theorem pushSerial_get_other (d : DealScanner) (serialNumber : String) (j : Nat)
    (hj : j ≠ d.currentAssetIndex) :
    (d.pushSerial serialNumber).scannedSerials.get j = d.scannedSerials.get j := by
  unfold DealScanner.pushSerial
  simp only
  rw [get_set_other _ _ _ _ hj]
  split
  · rw [get_set_other _ _ _ _ hj]
  · rfl

/-- C21: for every assignment state and serial, `addSerialNumber` - and in the same
way the `handleScannedSerial` handler after `startScanning(i)` - appends the
serial at the end of the list of the currently selected slot, creating the list
when the slot had none, and leaves the list of every other slot, the asset
list and the selected deal unchanged; the slot's list grows by exactly one, so
a slot that already held a serial then holds more than one. -/
theorem addSerialNumber_appends (d : DealScanner) (serialNumber : String) :
    (d.addSerialNumber serialNumber).scannedSerials.get d.currentAssetIndex =
        some (d.serialsOrEmpty d.currentAssetIndex ++ [serialNumber]) ∧
      ((d.addSerialNumber serialNumber).serialsOrEmpty d.currentAssetIndex).length =
        (d.serialsOrEmpty d.currentAssetIndex).length + 1 ∧
      (∀ j, j ≠ d.currentAssetIndex →
        (d.addSerialNumber serialNumber).scannedSerials.get j = d.scannedSerials.get j) ∧
      (d.addSerialNumber serialNumber).assets = d.assets ∧
      (d.addSerialNumber serialNumber).selectedDeal = d.selectedDeal ∧
      (d.addSerialNumber serialNumber).currentAssetIndex = d.currentAssetIndex ∧
      (∀ i, ((d.startScanning i).handleScannedSerial serialNumber).scannedSerials.get i =
          some (d.serialsOrEmpty i ++ [serialNumber]) ∧
        (∀ j, j ≠ i →
          ((d.startScanning i).handleScannedSerial serialNumber).scannedSerials.get j =
            d.scannedSerials.get j) ∧
        ((d.startScanning i).handleScannedSerial serialNumber).assets = d.assets ∧
        ((d.startScanning i).handleScannedSerial serialNumber).selectedDeal = d.selectedDeal) ∧
      ((twoSlotDeal [(0, ["2310211025"])]).addSerialNumber "4350216026").scannedSerials =
        [(0, ["2310211025", "4350216026"])] := by
  refine ⟨pushSerial_get_same d serialNumber, ?_, pushSerial_get_other d serialNumber,
    rfl, rfl, rfl, ?_, by decide⟩
  · have h := pushSerial_get_same d serialNumber
    have h2 : (d.addSerialNumber serialNumber).serialsOrEmpty d.currentAssetIndex =
        d.serialsOrEmpty d.currentAssetIndex ++ [serialNumber] := by
      unfold DealScanner.addSerialNumber
      conv_lhs => unfold DealScanner.serialsOrEmpty
      rw [h]
    rw [h2]
    simp
  · intro i
    exact ⟨pushSerial_get_same (d.startScanning i) serialNumber,
      pushSerial_get_other (d.startScanning i) serialNumber, rfl, rfl⟩

/-- C22 (counterexample): in the single-value lineage a deal with two slots whose
first slot holds `"2310211025"` and `"4350216026"` is submitted as one record
with the single field `Serial_1 = "2310211025"`: the second serial of the
slot is absent, and there is no entry for the second slot. -/
theorem singleValuePayload_drops_serials :
    (twoSlotDeal [(0, ["2310211025", "4350216026"])]).singleValuePayload =
        { id := some "deal-1", fields := [("Serial_1", "2310211025")] } ∧
      (twoSlotDeal [(0, ["2310211025", "4350216026"])]).assets.length = 2 ∧
      (twoSlotDeal [(0, ["2310211025", "4350216026"])]).singleValuePayload.fields.length = 1 := by
  decide

/-- C22 (amended): in the array lineage (`src/deal-scanner.js` with
`updateDealAssets`) the payload has one entry per asset, in slot order, and the
entry of slot `i` carries the asset's id and every serial assigned to that
slot in scan order, the empty list for a slot with none. -/
theorem arrayPayload_full_snapshot (d : DealScanner) :
    d.arrayPayload.length = d.assets.length ∧
      (∀ i, d.arrayPayload[i]? =
        (d.assets[i]?).map (fun asset =>
          ({ id := asset.id, Serial_Numbers := d.serialsOrEmpty i } : AssetUpdate))) ∧
      (twoSlotDeal [(0, ["2310211025", "4350216026"])]).arrayPayload =
        [{ id := none, Serial_Numbers := ["2310211025", "4350216026"] },
         { id := none, Serial_Numbers := [] }] := by
  refine ⟨?_, ?_, by decide⟩
  · simp [DealScanner.arrayPayload, updateDealAssetsBody, DealScanner.updatedAssets]
  · intro i
    simp only [DealScanner.arrayPayload, updateDealAssetsBody, DealScanner.updatedAssets,
      List.map_map, List.getElem?_map, List.getElem?_enum]
    cases d.assets[i]? <;> rfl

theorem dealData_field_iff (d : DealScanner) (name value : String) :
    (name, value) ∈ d.dealData.fields ↔
      ∃ index, index < d.assets.length ∧ name = serialField index ∧
        (d.serialsOrEmpty index).head? = some value := by
  unfold DealScanner.dealData DealScanner.serialsOrEmpty
  simp only [List.mem_filterMap, List.mem_range]
  constructor
  · rintro ⟨index, hlt, h⟩
    refine ⟨index, hlt, ?_⟩
    cases hg : d.scannedSerials.get index with
    | none => simp [hg] at h
    | some serials =>
      cases serials with
      | nil => simp [hg] at h
      | cons first rest =>
        simp only [hg, Option.some.injEq, Prod.mk.injEq] at h
        exact ⟨h.1.symm, by simp [h.2]⟩
  · rintro ⟨index, hlt, hname, hhead⟩
    refine ⟨index, hlt, ?_⟩
    cases hg : d.scannedSerials.get index with
    | none => simp [hg] at hhead
    | some serials =>
      cases serials with
      | nil => simp [hg] at hhead
      | cons first rest =>
        simp only [hg, List.head?_cons, Option.some.injEq] at hhead
        simp [hname, hhead]

/-- C23: in the single-value lineage the payload record is `{id: selectedDeal}`
plus, for each slot index whose list is non-empty, the field `Serial_{i+1}`
holding the first serial of slot `i`, in slot order; a slot without serial
contributes no field; and the payload depends on the first serials only: two
states that agree on the selected deal, the number of slots and the first
serial of every slot give the same payload, whatever later serials they hold. -/
theorem singleValuePayload_first_serials (d : DealScanner) :
    d.singleValuePayload.id = d.selectedDeal ∧
      d.singleValuePayload.fields =
        (List.range d.assets.length).filterMap (fun index =>
          ((d.serialsOrEmpty index).head?).map (fun first => (serialField index, first))) ∧
      (∀ name value, (name, value) ∈ d.singleValuePayload.fields ↔
        ∃ index, index < d.assets.length ∧ name = serialField index ∧
          (d.serialsOrEmpty index).head? = some value) ∧
      (∀ other : DealScanner, other.selectedDeal = d.selectedDeal →
        other.assets.length = d.assets.length →
        (∀ index, (other.serialsOrEmpty index).head? = (d.serialsOrEmpty index).head?) →
        other.singleValuePayload = d.singleValuePayload) ∧
      (List.range 4).map serialField = ["Serial_1", "Serial_2", "Serial_3", "Serial_4"] ∧
      (twoSlotDeal [(0, ["2310211025", "4350216026"]), (1, [])]).singleValuePayload =
        { id := some "deal-1", fields := [("Serial_1", "2310211025")] } := by
  have hfields : ∀ e : DealScanner, e.singleValuePayload.fields =
      (List.range e.assets.length).filterMap (fun index =>
        ((e.serialsOrEmpty index).head?).map (fun first => (serialField index, first))) := by
    intro e
    unfold DealScanner.singleValuePayload updateDealBody DealScanner.dealData
      DealScanner.serialsOrEmpty
    simp only
    congr 1
    funext index
    cases hg : e.scannedSerials.get index with
    | none => rfl
    | some serials => cases serials <;> rfl
  refine ⟨rfl, hfields d, dealData_field_iff d, ?_, by decide, by decide⟩
  intro other hdeal hlen hheads
  have h1 : other.singleValuePayload.id = d.singleValuePayload.id := hdeal
  have h2 : other.singleValuePayload.fields = d.singleValuePayload.fields := by
    rw [hfields other, hfields d, hlen]
    congr 1
    funext index
    rw [hheads index]
  cases ho : other.singleValuePayload
  cases hd : d.singleValuePayload
  rw [ho, hd] at h1 h2
  simp only at h1 h2
  rw [h1, h2]

/-- C24: a failed submission leaves the assignment state as it was, in both
lineages (the collaborator throws, or in the frontend lineage answers without
`data`), and arms no reset; a successful one resets it entirely
(`selectedDeal = null`, `assets = []`, `scannedSerials = {}`): at once in
`src/deal-scanner.js`, by the callback of the 2000 ms timer in
`src/frontend/deal-scanner.js`. -/
theorem submission_atomic (d : DealScanner) :
    (d.submitArrays UpdateAnswer.throws).state = d ∧
      (d.submitSingleValue UpdateAnswer.throws).state = d ∧
      (d.submitSingleValue (UpdateAnswer.responds false)).state = d ∧
      (d.submitSingleValue UpdateAnswer.throws).resetPending = false ∧
      (d.submitSingleValue (UpdateAnswer.responds false)).resetPending = false ∧
      (∀ hasData, (d.submitArrays (UpdateAnswer.responds hasData)).succeeded = true ∧
        (d.submitArrays (UpdateAnswer.responds hasData)).state.selectedDeal = none ∧
        (d.submitArrays (UpdateAnswer.responds hasData)).state.assets = [] ∧
        (d.submitArrays (UpdateAnswer.responds hasData)).state.scannedSerials = []) ∧
      ((d.submitSingleValue (UpdateAnswer.responds true)).succeeded = true ∧
        (d.submitSingleValue (UpdateAnswer.responds true)).resetPending = true ∧
        (d.submitSingleValue (UpdateAnswer.responds true)).state.resetTimerFires.selectedDeal =
          none ∧
        (d.submitSingleValue (UpdateAnswer.responds true)).state.resetTimerFires.assets = [] ∧
        (d.submitSingleValue
          (UpdateAnswer.responds true)).state.resetTimerFires.scannedSerials = []) := by
  refine ⟨rfl, rfl, rfl, rfl, rfl, ?_, rfl, rfl, rfl, rfl, rfl⟩
  intro hasData
  exact ⟨rfl, rfl, rfl, rfl⟩

end ScannerApp

/-! ## Claims on failures, validity of tokens and slot labels -/

namespace ScannerApp

theorem scheduleNext_eq (s : Session) :
    scheduleNext s =
      { s with pendingTimers := if s.isScanning then s.pendingTimers + 1 else s.pendingTimers } := by
  unfold scheduleNext
  by_cases h : s.isScanning = true
  · rw [if_pos h, if_pos h]
  · rw [if_neg h, if_neg h]

/-- C25 (evaluation of the code at the failing input): when the rear camera is
granted and `video.play()` is then rejected, `startCamera` ends in its `catch`
block with `isScanning` false and the error message set, but the stream just
obtained is still held (`stream` and `video.srcObject` refer to it) and its
track is still running; when both camera requests are rejected no stream is
held. -/
theorem startCamera_play_failure_keeps_stream :
    (startCamera Session.initial cameraPlayFails sampleFrame).isScanning = false ∧
      (startCamera Session.initial cameraPlayFails sampleFrame).resultText =
        "Camera access denied. Please check permissions." ∧
      (startCamera Session.initial cameraPlayFails sampleFrame).stream = some 0 ∧
      (startCamera Session.initial cameraPlayFails sampleFrame).srcObject = some 0 ∧
      (startCamera Session.initial cameraPlayFails sampleFrame).streams =
        [{ tracks := [{ stopped := false }] }] ∧
      (startCamera Session.initial cameraPlayFails sampleFrame).scannedNumbers = [] ∧
      (startCamera Session.initial cameraDenied sampleFrame).stream = none ∧
      (startCamera Session.initial cameraDenied sampleFrame).isScanning = false := by
  decide

/-- C26: for every cycle in which the recognition call fails, `processFrame` ends
in its `catch` block: the processing-error message is set, the collection and
`isScanning` are unchanged, `isProcessing` is false, and one more timer is
armed exactly when `isScanning` is true. -/
theorem recognition_failure_handled (s : Session) (now : String) :
    processFrameResume s none now =
        (CycleOutcome.failed,
          { s with resultText := "Processing error. Please try again.", isProcessing := false,
                   pendingTimers :=
                     if s.isScanning then s.pendingTimers + 1 else s.pendingTimers }) ∧
      (processFrameResume s none now).2.resultText = "Processing error. Please try again." ∧
      (processFrameResume s none now).2.scannedNumbers = s.scannedNumbers ∧
      (processFrameResume s none now).2.isProcessing = false ∧
      (processFrameResume s none now).2.isScanning = s.isScanning ∧
      (processFrameResume s none now).2.pendingTimers =
        (if s.isScanning then s.pendingTimers + 1 else s.pendingTimers) ∧
      (processFrameResume s none now).2.stream = s.stream := by
  have h : processFrameResume s none now =
      (CycleOutcome.failed,
        { s with resultText := "Processing error. Please try again.", isProcessing := false,
                 pendingTimers :=
                   if s.isScanning then s.pendingTimers + 1 else s.pendingTimers }) := by
    simp only [processFrameResume]
    rw [scheduleNext_eq]
  rw [h]
  exact ⟨rfl, rfl, rfl, rfl, rfl, rfl, rfl⟩

/-- C29: for every recognised token, the test of line 461 accepts the token iff
the token contains exactly ten ASCII digit characters in total, wherever they
stand among other characters; `"23-1026-1085"` and `"12345abc67890"` are
accepted, `"ABC1234567DEF"` is not. -/
theorem isValidWord_iff_ten_digits (word : String) :
    (isValidWord word = true ↔ (word.data.filter isDigit09).length = 10) ∧
      isValidWord "23-1026-1085" = true ∧ isValidWord "12345abc67890" = true ∧
      isValidWord "ABC1234567DEF" = false := by
  refine ⟨?_, by decide, by decide, by decide⟩
  rw [isValidWord_iff, isTenDigits_iff]
  have hd : (cleanWord word).data = word.data.filter isDigit09 :=
    replaceNonDigits_eq_filter word.data
  rw [hd]
  constructor
  · exact fun h => h.1
  · intro h
    exact ⟨h, fun c hc => (List.mem_filter.mp hc).2⟩

/-- C30 (evaluation of the code at the failing input): for a CRM deal whose
`Model_1` is empty and whose `Model_2` is filled, `fetchActiveDeals` yields one
asset slot, labelled `"Model 2"`, at slot index 0; the serial scanned for it is
submitted under the field `Serial_1`, and no field `Serial_2` is submitted. -/
theorem second_model_submitted_as_first :
    (DealScanner.fresh.handleDealSelection dealWithSecondModelOnly).assets =
        [{ id := none, Model := "Model 2", Model_Value := "AC-200" }] ∧
      (((DealScanner.fresh.handleDealSelection dealWithSecondModelOnly).startScanning
          0).handleScannedSerial "2310211025").singleValuePayload =
        { id := some "5665332000014936002", fields := [("Serial_1", "2310211025")] } ∧
      serialField 1 = "Serial_2" ∧
      ∀ value, ("Serial_2", value) ∉
        (((DealScanner.fresh.handleDealSelection dealWithSecondModelOnly).startScanning
          0).handleScannedSerial "2310211025").singleValuePayload.fields := by
  refine ⟨by decide, by decide, by decide, ?_⟩
  intro value
  have h : (((DealScanner.fresh.handleDealSelection dealWithSecondModelOnly).startScanning
      0).handleScannedSerial "2310211025").singleValuePayload.fields =
      [("Serial_1", "2310211025")] := by decide
  rw [h]
  intro hmem
  rw [List.mem_singleton, Prod.mk.injEq] at hmem
  exact absurd hmem.1 (by decide)

end ScannerApp

/-! ## Claims on the proxy headers and on padding -/

namespace ScannerApp

theorem find?_eq_head?_filter (p : String × String → Bool) (l : Headers) :
    l.find? p = (l.filter p).head? := by
  induction l with
  | nil => rfl
  | cons x xs ih =>
    cases hx : p x with
    | false =>
      have hneg : ¬ p x = true := by simp [hx]
      rw [List.find?_cons_of_neg _ hneg, List.filter_cons_of_neg hneg]
      exact ih
    | true =>
      rw [List.find?_cons_of_pos _ hx, List.filter_cons_of_pos hx]
      rfl

theorem getHeader_of_entries (headers : Headers) (name value : String)
    (h : headers.filter (fun header => header.1 == lowerCase name) =
      [(lowerCase name, value)]) :
    getHeader headers name = some value := by
  unfold getHeader
  rw [find?_eq_head?_filter, h]
  rfl

theorem entries_setHeader_same (headers : Headers) (name value : String) :
    (setHeader headers name value).filter (fun header => header.1 == lowerCase name) =
      [(lowerCase name, value)] := by
  unfold setHeader removeHeader
  rw [List.filter_append, List.filter_filter]
  have h1 : List.filter (fun a : String × String =>
      a.1 == lowerCase name && a.1 != lowerCase name) headers = [] := by
    rw [List.filter_eq_nil_iff]
    intro a _
    cases h : (a.1 == lowerCase name) <;> simp [bne, h]
  rw [h1]
  simp

theorem entries_setHeader_other (headers : Headers) (name value key : String)
    (hk : key ≠ lowerCase name) :
    (setHeader headers name value).filter (fun header => header.1 == key) =
      headers.filter (fun header => header.1 == key) := by
  unfold setHeader removeHeader
  rw [List.filter_append, List.filter_filter]
  have h1 : List.filter (fun a : String × String => a.1 == key && a.1 != lowerCase name)
      headers = List.filter (fun a : String × String => a.1 == key) headers := by
    apply List.filter_congr
    intro a _
    by_cases h : a.1 = key
    · have : a.1 ≠ lowerCase name := fun hc => hk (h.symm.trans hc)
      simp [h, bne, hk]
    · simp [h]
  have h2 : List.filter (fun a : String × String => a.1 == key) [(lowerCase name, value)] =
      [] := by
    have : ¬ lowerCase name = key := fun hc => hk hc.symm
    simp [List.filter_cons, this]
  rw [h1, h2, List.append_nil]

theorem onProxyReq_entries (proxyHeaders : Headers) (method token : String) (ht : token ≠ "") :
    (onProxyReq proxyHeaders { method := method, zohoToken := some token }).filter
        (fun header => header.1 == "authorization") =
        [("authorization", authHeader method token)] ∧
      (onProxyReq proxyHeaders { method := method, zohoToken := some token }).filter
        (fun header => header.1 == "content-type") = [("content-type", "application/json")] ∧
      (onProxyReq proxyHeaders { method := method, zohoToken := some token }).filter
        (fun header => header.1 == "accept") = [("accept", "application/json")] ∧
      (onProxyReq proxyHeaders { method := method, zohoToken := some token }).filter
        (fun header => header.1 == "connection") = [("connection", "keep-alive")] ∧
      (onProxyReq proxyHeaders { method := method, zohoToken := some token }).filter
        (fun header => header.1 == "cache-control") =
        [("cache-control", "no-store, no-cache, must-revalidate, private")] ∧
      (onProxyReq proxyHeaders { method := method, zohoToken := some token }).filter
        (fun header => header.1 == "pragma") = [("pragma", "no-cache")] := by
  unfold onProxyReq
  simp only [ht, ne_eq, not_false_eq_true, if_true]
  refine ⟨?_, ?_, ?_, ?_, ?_, ?_⟩
  · rw [entries_setHeader_other _ _ _ _ (by decide), entries_setHeader_other _ _ _ _ (by decide),
      entries_setHeader_other _ _ _ _ (by decide), entries_setHeader_other _ _ _ _ (by decide),
      entries_setHeader_other _ _ _ _ (by decide)]
    exact entries_setHeader_same _ "Authorization" _
  · rw [entries_setHeader_other _ _ _ _ (by decide), entries_setHeader_other _ _ _ _ (by decide),
      entries_setHeader_other _ _ _ _ (by decide), entries_setHeader_other _ _ _ _ (by decide)]
    exact entries_setHeader_same _ "Content-Type" _
  · rw [entries_setHeader_other _ _ _ _ (by decide), entries_setHeader_other _ _ _ _ (by decide),
      entries_setHeader_other _ _ _ _ (by decide)]
    exact entries_setHeader_same _ "Accept" _
  · rw [entries_setHeader_other _ _ _ _ (by decide), entries_setHeader_other _ _ _ _ (by decide)]
    exact entries_setHeader_same _ "Connection" _
  · rw [entries_setHeader_other _ _ _ _ (by decide)]
    exact entries_setHeader_same _ "Cache-Control" _
  · exact entries_setHeader_same _ "Pragma" _

/-- C27: for every set of headers on the outgoing request, every method and every
non-empty access token `t`, after `onProxyReq` the outgoing request has exactly
one `Authorization` header, `Bearer t` for the method `PUT` and
`Zoho-oauthtoken t` for every other method, whatever the client had sent, and
`Content-Type` and `Accept` are `application/json`, `Connection` is
`keep-alive`, `Cache-Control` is `no-store, no-cache, must-revalidate, private`
and `Pragma` is `no-cache`. -/
theorem onProxyReq_sets_headers (proxyHeaders : Headers) (method token : String)
    (ht : token ≠ "") :
    getHeader (onProxyReq proxyHeaders { method := method, zohoToken := some token })
        "Authorization" =
        some (if method = "PUT" then "Bearer " ++ token else "Zoho-oauthtoken " ++ token) ∧
      (onProxyReq proxyHeaders { method := method, zohoToken := some token }).filter
        (fun header => header.1 == "authorization") =
        [("authorization",
          if method = "PUT" then "Bearer " ++ token else "Zoho-oauthtoken " ++ token)] ∧
      getHeader (onProxyReq proxyHeaders { method := method, zohoToken := some token })
        "Content-Type" = some "application/json" ∧
      getHeader (onProxyReq proxyHeaders { method := method, zohoToken := some token })
        "Accept" = some "application/json" ∧
      getHeader (onProxyReq proxyHeaders { method := method, zohoToken := some token })
        "Connection" = some "keep-alive" ∧
      getHeader (onProxyReq proxyHeaders { method := method, zohoToken := some token })
        "Cache-Control" = some "no-store, no-cache, must-revalidate, private" ∧
      getHeader (onProxyReq proxyHeaders { method := method, zohoToken := some token })
        "Pragma" = some "no-cache" := by
  obtain ⟨h1, h2, h3, h4, h5, h6⟩ := onProxyReq_entries proxyHeaders method token ht
  exact ⟨getHeader_of_entries _ "Authorization" _ h1, h1,
    getHeader_of_entries _ "Content-Type" _ h2, getHeader_of_entries _ "Accept" _ h3,
    getHeader_of_entries _ "Connection" _ h4, getHeader_of_entries _ "Cache-Control" _ h5,
    getHeader_of_entries _ "Pragma" _ h6⟩

/-- Witness for C27: the requests of the two tests in
`src/backend/__tests__/server.test.js`, with an `Authorization` header sent by
the client added. -/
theorem onProxyReq_sets_headers_witness :
    getHeader (onProxyReq [("content-type", "application/json"), ("accept", "application/json"),
          ("authorization", "Basic client")]
        { method := "PUT", zohoToken := some "test-access-token" }) "Authorization" =
        some "Bearer test-access-token" ∧
      getHeader (onProxyReq [("content-type", "application/json"), ("accept", "application/json"),
          ("authorization", "Basic client")]
        { method := "GET", zohoToken := some "test-access-token" }) "Authorization" =
        some "Zoho-oauthtoken test-access-token" :=
  ⟨(onProxyReq_sets_headers _ "PUT" "test-access-token" (by decide)).1,
   (onProxyReq_sets_headers _ "GET" "test-access-token" (by decide)).1⟩

theorem padded_axis_contains (exactStart exactExtent : JSNum) (frameSize : Nat) (p : ℚ)
    (h1 : JSNum.le exactStart (JSNum.fin p) = true)
    (h2 : JSNum.lt (JSNum.fin p) (JSNum.add exactStart exactExtent) = true)
    (h3 : 0 ≤ p) (h4 : p < frameSize) :
    JSNum.le (paddedStart exactStart) (JSNum.fin p) = true ∧
      JSNum.lt (JSNum.fin p) (JSNum.add (paddedStart exactStart)
        (paddedExtent frameSize (paddedStart exactStart) exactExtent)) = true := by
  cases exactStart with
  | nan => simp [JSNum.le] at h1
  | posInf => simp [JSNum.le] at h1
  | negInf => cases exactExtent <;> simp [JSNum.add, JSNum.lt] at h2
  | fin a =>
    simp only [JSNum.le, decide_eq_true_eq] at h1
    cases exactExtent with
    | nan => simp [JSNum.add, JSNum.lt] at h2
    | negInf => simp [JSNum.add, JSNum.lt] at h2
    | posInf =>
      simp only [paddedStart, paddedExtent, padding, JSNum.sub, JSNum.neg, JSNum.add, JSNum.max,
        JSNum.min, JSNum.mul, JSNum.le, JSNum.lt, decide_eq_true_eq]
      constructor
      · split_ifs <;> linarith
      · split_ifs <;> linarith
    | fin b =>
      simp only [JSNum.add, JSNum.lt, decide_eq_true_eq] at h2
      simp only [paddedStart, paddedExtent, padding, JSNum.sub, JSNum.neg, JSNum.add, JSNum.max,
        JSNum.min, JSNum.mul, JSNum.le, JSNum.lt, decide_eq_true_eq]
      constructor
      · split_ifs <;> linarith
      · split_ifs <;> linarith

/-- C28: for every scan region, video display rectangle and frame size on which
the computation does not abort, every point of the frame that lies inside the
exact (unpadded, rounded) scan rectangle lies inside the padded region, also
when the left or top edge was floored at 0 or the width or height capped at the
frame edge. -/
theorem padding_never_cuts (region video : DOMRect) (frameWidth frameHeight : Nat) (roi : ROI)
    (px py : ℚ) (h : computeROI region video frameWidth frameHeight = some roi)
    (hexact : (exactScanRegion region video frameWidth frameHeight).contains px py = true)
    (hx : 0 ≤ px ∧ px < frameWidth) (hy : 0 ≤ py ∧ py < frameHeight) :
    roi.contains px py = true := by
  rw [computeROI_some_iff] at h
  obtain ⟨_, _, _, _, hroi⟩ := h
  unfold ROI.contains exactScanRegion at hexact
  simp only [Bool.and_eq_true] at hexact
  obtain ⟨⟨⟨e1, e2⟩, e3⟩, e4⟩ := hexact
  have hX := padded_axis_contains _ _ frameWidth px e1 e2 hx.1 hx.2
  have hY := padded_axis_contains _ _ frameHeight py e3 e4 hy.1 hy.2
  rw [hroi]
  unfold ROI.contains
  simp only [Bool.and_eq_true]
  exact ⟨⟨⟨hX.1, hX.2⟩, hY.1⟩, hY.2⟩

/-- Witness for C28 on the geometry of `sampleFrame`: the corner point (320, 310)
of the exact rectangle lies in the padded region `{315, 305, 650, 110}`. -/
theorem padding_never_cuts_witness :
    ({ x := JSNum.fin 315, y := JSNum.fin 305, width := JSNum.fin 650,
       height := JSNum.fin 110 } : ROI).contains 320 310 = true :=
  padding_never_cuts { left := 320, top := 310, width := 640, height := 100 }
    { left := 0, top := 0, width := 1280, height := 720 } 1280 720 _ 320 310
    (by norm_num [computeROI, scanAxis, scaleFactor, exactScanStart, exactScanExtent,
      paddedStart, paddedExtent, padding, JSNum.truthy, JSNum.div, JSNum.mul, JSNum.sub,
      JSNum.add, JSNum.neg, JSNum.round, JSNum.max, JSNum.min, JSNum.le, JSNum.signedInf])
    (by norm_num [ROI.contains, exactScanRegion, scaleFactor, exactScanStart, exactScanExtent,
      JSNum.div, JSNum.mul, JSNum.sub, JSNum.add, JSNum.neg, JSNum.round, JSNum.le, JSNum.lt,
      JSNum.signedInf])
    ⟨by norm_num, by norm_num⟩ ⟨by norm_num, by norm_num⟩

end ScannerApp
